import Mathlib

/-!
Shallow embedding of the campaign-flow orchestrator backend
(src/backend/src of the repository) and proofs about it.

Modelling conventions:
- Python floats are modelled as exact rationals.  All arithmetic the
  claims mention (composite scores, derived metrics, the 1/(i+1)
  narrowing fraction) is +, *, /, min and comparisons, which agree with
  exact arithmetic except for rounding; the theorems proved here only
  use order/count facts that hold under both semantics.
- Database rows are structures, the database is a structure of lists,
  and every repository call that commits is a pure function on it.
- Python "list.sort" is a stable sort; a stable sort's output is
  uniquely determined by the key order and the input order, so it is
  embedded as Mathlib's "List.insertionSort" (also stable).
- Exceptions are modelled with "Except": a raised exception carries the
  database as of the raise (every repository write in the code paths
  modelled commits immediately, so a later rollback does not undo it).
- Opaque ids are natural numbers.
-/

/-- Opaque unique id (Python UUID). -/
abbrev PyUUID := Nat

/-- Truthiness of a Python "str | None": None and the empty string are falsy. -/
def pyTruthyStr : Option String → Bool
  | none => false
  | some s => s ≠ ""

/-- Truthiness of a Python "list | None": None and the empty list are falsy. -/
def pyTruthyList {α : Type} : Option (List α) → Bool
  | none => false
  | some l => !l.isEmpty

/-- Python "int(x)" for a nonnegative rational: truncation toward zero,
which on nonnegative values is the floor. -/
def pyIntOfRat (q : ℚ) : ℤ := if q ≥ 0 then ⌊q⌋ else ⌈q⌉

-- ---------------------------------------------------------------
-- campaigns/models.py
-- ---------------------------------------------------------------

/-- FlowStepState (campaigns/models.py): state of a flow step. -/
inductive FlowStepState where
  | generating
  | collectingData
  | analyzing
  | completed
deriving DecidableEq, Repr

/-- The value string of the FlowStepState str-enum. -/
def FlowStepState.value : FlowStepState → String
  | .generating => "generating"
  | .collectingData => "collecting"
  | .analyzing => "analyzing"
  | .completed => "completed"

/-- Position of a state in the forward order
GENERATING, COLLECTING_DATA, ANALYZING, COMPLETED. -/
def FlowStepState.idx : FlowStepState → Nat
  | .generating => 0
  | .collectingData => 1
  | .analyzing => 2
  | .completed => 3

/-- ImageMetrics (campaigns/models.py): raw counts plus derived ratios.
Raw counts are Python ints (ℤ), cost a float (ℚ exact). -/
structure ImageMetrics where
  imageId : PyUUID
  impressions : ℤ := 0
  clicks : ℤ := 0
  conversions : ℤ := 0
  cost : ℚ := 0
  ctr : ℚ := 0
  conversionRate : ℚ := 0
  cpc : ℚ := 0
  cpa : ℚ := 0
deriving DecidableEq, Repr

/-- ImageMetrics.compute_derived_metrics (campaigns/models.py, lines 182-187):
each ratio is the quotient of its raw counts when the denominator is
positive, and 0.0 otherwise. -/
def ImageMetrics.computeDerivedMetrics (m : ImageMetrics) : ImageMetrics :=
  { m with
    ctr := if m.impressions > 0 then (m.clicks : ℚ) / (m.impressions : ℚ) else 0
    conversionRate := if m.clicks > 0 then (m.conversions : ℚ) / (m.clicks : ℚ) else 0
    cpc := if m.clicks > 0 then m.cost / (m.clicks : ℚ) else 0
    cpa := if m.conversions > 0 then m.cost / (m.conversions : ℚ) else 0 }

-- ---------------------------------------------------------------
-- functions/analysis.py : select_top_images_by_score
-- ---------------------------------------------------------------

/-- The analytics dict passed for one image: exactly the keys read by
select_top_images_by_score; a missing key is None, and "dict.get(k, 0)"
is modelled by "getD 0" on the field. -/
structure ImageAnalyticsDict where
  interactionRate : Option ℚ := none
  interactions : Option ℚ := none
  conversionValue : Option ℚ := none
  conversionRate : Option ℚ := none
  ctr : Option ℚ := none
deriving DecidableEq, Repr

/-- The composite score computed in the body of select_top_images_by_score
(functions/analysis.py, lines 188-208). -/
def compositeScore (a : ImageAnalyticsDict) : ℚ :=
  let interactionScore :=
    (a.interactionRate.getD 0) * (6/10) + ((a.interactions.getD 0) / 1000) * (4/10)
  let conversionValueScore := min ((a.conversionValue.getD 0) / 1000) 1
  let conversionRateScore := a.conversionRate.getD 0
  let ctrScore := min ((a.ctr.getD 0) * 10) 1
  interactionScore * (4/10) + conversionValueScore * (3/10)
    + conversionRateScore * (2/10) + ctrScore * (1/10)

/-- The comparison used to embed "scored_images.sort(key=fst, reverse=True)":
descending by score; a stable sort under this relation keeps equal-score
entries in input order, exactly as Python's stable sort does. -/
def scoredGE (x y : ℚ × PyUUID) : Prop := y.1 ≤ x.1

instance : DecidableRel scoredGE := fun x y => inferInstanceAs (Decidable (y.1 ≤ x.1))

/-- select_top_images_by_score (functions/analysis.py, lines 172-218). -/
def selectTopImagesByScore (imageAnalytics : List (PyUUID × ImageAnalyticsDict))
    (topN : Nat) : List PyUUID × List PyUUID :=
  let scoredImages := imageAnalytics.map (fun p => (compositeScore p.2, p.1))
  let sorted := List.insertionSort scoredGE scoredImages
  let topIds := (sorted.take topN).map (·.2)
  let bottomIds := (sorted.drop topN).map (·.2)
  (topIds, bottomIds)

-- ---------------------------------------------------------------
-- models.py : Asset, AssetType, TargetGroup, CampaignSpec
-- ---------------------------------------------------------------

/-- AssetType (models.py): category of an asset. -/
inductive AssetType where
  | background | product | model | logo | slogan
  | tagline | headline | description | cta
deriving DecidableEq, Repr

/-- The value string of the AssetType str-enum. -/
def AssetType.value : AssetType → String
  | .background => "background"
  | .product => "product"
  | .model => "model"
  | .logo => "logo"
  | .slogan => "slogan"
  | .tagline => "tagline"
  | .headline => "headline"
  | .description => "description"
  | .cta => "cta"

/-- Asset (models.py).  The asset_type column is an enum in the model but
the orchestrator code guards against a missing value
("asset.asset_type.value if asset.asset_type else ..."), so it is
optional here; embedding is optional exactly as in the source. -/
structure Asset where
  id : PyUUID
  name : String := ""
  fileName : String := ""
  assetType : Option AssetType := none
  caption : String := ""
  tags : List String := []
  embedding : Option (List ℚ) := none
deriving DecidableEq, Repr

/-- TargetGroup (models.py); only the fields the orchestrator reads. -/
structure TargetGroup where
  id : PyUUID
  name : String := ""
deriving DecidableEq, Repr

/-- Modelled from the spec: CampaignSpec is defined in models.py in the
repository but that class is missing from the source snapshot (only its
callers are present).  Spec section 3: "template - name, base prompt
text, max iteration count, linked base assets, linked target groups".
max_iterations is a Python int, kept as ℤ so that
"iteration < max_iterations - 1" is computed without truncation. -/
structure CampaignSpec where
  id : PyUUID
  name : String := ""
  basePrompt : String := ""
  maxIterations : ℤ := 0
  baseAssets : List Asset := []
  targetGroups : List TargetGroup := []
deriving DecidableEq, Repr

-- ---------------------------------------------------------------
-- campaigns/models.py : rows of the persistent store
-- ---------------------------------------------------------------

/-- Campaign (campaigns/models.py): one run instance of a spec. -/
structure Campaign where
  id : PyUUID
  campaignSpecId : PyUUID
deriving DecidableEq, Repr

/-- CampaignFlow (campaigns/models.py): one flow per target group. -/
structure CampaignFlow where
  id : PyUUID
  campaignId : PyUUID
  targetGroupId : PyUUID
  initialPrompt : String
deriving DecidableEq, Repr

/-- FlowStep (campaigns/models.py): the state-machine unit. -/
structure FlowStep where
  id : PyUUID
  flowId : PyUUID
  iteration : Nat
  state : FlowStepState
  inputEmbedding : Option (List ℚ) := none
  inputInsights : Option String := none
deriving DecidableEq, Repr

/-- GenerationResult (campaigns/models.py); the selected-asset link rows
(GenerationResultAsset) are folded into the id list, in link order. -/
structure GenerationResult where
  id : PyUUID
  stepId : PyUUID
  prompt : String
  promptNotes : Option String := none
  selectedAssetIds : List PyUUID := []
deriving DecidableEq, Repr

/-- GeneratedImage (campaigns/models.py); source-asset link rows folded
into the id list, in link order. -/
structure GeneratedImage where
  id : PyUUID
  generationResultId : PyUUID
  fileName : String
  metadataTags : Option (List String) := none
  modelVersion : Option String := none
  sourceAssetIds : List PyUUID := []
deriving DecidableEq, Repr

/-- AnalysisResult (campaigns/models.py). -/
structure AnalysisResult where
  id : PyUUID
  stepId : PyUUID
  winnerImageIds : List PyUUID
  outputEmbedding : List ℚ
  qualitativeDiff : String
  diffTags : List String := []
deriving DecidableEq, Repr

/-- The persistent store: one list per table, plus a counter supplying
fresh row ids (uuid4 in the source; a counter is a deterministic
embedding of fresh-id generation). -/
structure DB where
  specs : List CampaignSpec := []
  campaigns : List Campaign := []
  flows : List CampaignFlow := []
  steps : List FlowStep := []
  genResults : List GenerationResult := []
  images : List GeneratedImage := []
  metrics : List ImageMetrics := []
  analyses : List AnalysisResult := []
  assets : List Asset := []
  targetGroups : List TargetGroup := []
  nextId : PyUUID := 1000
deriving DecidableEq, Repr

-- ---------------------------------------------------------------
-- campaigns/repository.py : CampaignRepository
-- NOTE: this class defines NO delete_generation_result method; the
-- orchestrator's call to it is embedded below as an AttributeError.
-- ---------------------------------------------------------------

/-- CampaignRepository.get_campaigns: pagination with offset/limit. -/
def getCampaigns (db : DB) (skip : Nat := 0) (limit : Nat := 100) : List Campaign :=
  (db.campaigns.drop skip).take limit

/-- CampaignRepository.get_flow. -/
def getFlow (db : DB) (flowId : PyUUID) : Option CampaignFlow :=
  db.flows.find? (fun f => f.id = flowId)

/-- CampaignRepository.get_flows_by_campaign. -/
def getFlowsByCampaign (db : DB) (campaignId : PyUUID) : List CampaignFlow :=
  db.flows.filter (fun f => f.campaignId = campaignId)

/-- CampaignRepository.get_step. -/
def getStep (db : DB) (stepId : PyUUID) : Option FlowStep :=
  db.steps.find? (fun s => s.id = stepId)

/-- Comparison embedding "order_by(FlowStep.iteration)" for a stable sort. -/
def stepIterLE (a b : FlowStep) : Prop := a.iteration ≤ b.iteration

instance : DecidableRel stepIterLE :=
  fun a b => inferInstanceAs (Decidable (a.iteration ≤ b.iteration))

/-- CampaignRepository.get_steps_by_flow: all steps of the flow ordered
by iteration ascending. -/
def getStepsByFlow (db : DB) (flowId : PyUUID) : List FlowStep :=
  List.insertionSort stepIterLE (db.steps.filter (fun s => s.flowId = flowId))

/-- One step of the maximum-iteration scan embedding
"order_by(iteration.desc()).first()": keep the earlier row on ties. -/
def latestPick (acc : Option FlowStep) (s : FlowStep) : Option FlowStep :=
  match acc with
  | none => some s
  | some b => if s.iteration > b.iteration then some s else some b

/-- CampaignRepository.get_latest_step: order_by iteration descending,
first row; i.e. the (first-listed) step with the maximal iteration. -/
def getLatestStep (db : DB) (flowId : PyUUID) : Option FlowStep :=
  (db.steps.filter (fun s => s.flowId = flowId)).foldl latestPick none

/-- CampaignRepository.create_step (insert + commit). -/
def repoCreateStep (db : DB) (step : FlowStep) : DB :=
  { db with steps := db.steps ++ [step] }

/-- CampaignRepository.update_step (add + commit of a mutated row). -/
def repoUpdateStep (db : DB) (step : FlowStep) : DB :=
  { db with steps := db.steps.map (fun s => if s.id = step.id then step else s) }

/-- CampaignRepository.get_generation_result_by_step. -/
def getGenerationResultByStep (db : DB) (stepId : PyUUID) : Option GenerationResult :=
  db.genResults.find? (fun r => r.stepId = stepId)

/-- CampaignRepository.create_generation_result (insert + commit). -/
def repoCreateGenerationResult (db : DB) (r : GenerationResult) : DB :=
  { db with genResults := db.genResults ++ [r] }

/-- CampaignRepository.get_images_by_generation_result. -/
def getImagesByGenerationResult (db : DB) (resultId : PyUUID) : List GeneratedImage :=
  db.images.filter (fun i => i.generationResultId = resultId)

/-- CampaignRepository.create_generated_image (insert + commit). -/
def repoCreateGeneratedImage (db : DB) (img : GeneratedImage) : DB :=
  { db with images := db.images ++ [img] }

/-- Session mutation of an image row (session.add of the mutated object,
committed at the end of the collecting loop). -/
def repoUpdateImage (db : DB) (img : GeneratedImage) : DB :=
  { db with images := db.images.map (fun i => if i.id = img.id then img else i) }

/-- CampaignRepository.get_image_metrics. -/
def getImageMetrics (db : DB) (imageId : PyUUID) : Option ImageMetrics :=
  db.metrics.find? (fun m => m.imageId = imageId)

/-- CampaignRepository.create_image_metrics (campaigns/repository.py,
lines 169-175): computes the derived ratios, then inserts. -/
def repoCreateImageMetrics (db : DB) (m : ImageMetrics) : DB × ImageMetrics :=
  let m' := m.computeDerivedMetrics
  ({ db with metrics := db.metrics ++ [m'] }, m')

/-- CampaignRepository.update_image_metrics (campaigns/repository.py,
lines 182-188): recomputes the derived ratios, then writes the row. -/
def repoUpdateImageMetrics (db : DB) (m : ImageMetrics) : DB × ImageMetrics :=
  let m' := m.computeDerivedMetrics
  ({ db with metrics := db.metrics.map (fun x => if x.imageId = m'.imageId then m' else x) }, m')

/-- CampaignRepository.get_analysis_result_by_step. -/
def getAnalysisResultByStep (db : DB) (stepId : PyUUID) : Option AnalysisResult :=
  db.analyses.find? (fun a => a.stepId = stepId)

/-- CampaignRepository.create_analysis_result (insert + commit). -/
def repoCreateAnalysisResult (db : DB) (r : AnalysisResult) : DB :=
  { db with analyses := db.analyses ++ [r] }

-- ---------------------------------------------------------------
-- Exceptions (campaigns/service.py error classes and Python builtins)
-- ---------------------------------------------------------------

/-- The exceptions the embedded code can raise.  InvalidStateTransitionError
(campaigns/service.py, lines 58-64) carries both the current and the
target state, exactly as the Python class stores them on the instance
and interpolates them into its message. -/
inductive PyError where
  | stepNotFound (stepId : PyUUID)
  | invalidStateTransition (current target : FlowStepState)
  | valueError (msg : String)
  | attributeError (obj attr : String)
deriving DecidableEq, Repr

/-- The message text of each exception (enum members rendered by their
value string). -/
def PyError.message : PyError → String
  | .stepNotFound sid => "FlowStep with id " ++ toString sid ++ " not found"
  | .invalidStateTransition c t =>
      "Cannot transition from " ++ c.value ++ " to " ++ t.value
  | .valueError m => m
  | .attributeError obj attr =>
      "'" ++ obj ++ "' object has no attribute '" ++ attr ++ "'"

-- ---------------------------------------------------------------
-- functions/embedding.py : compute_mean_embedding
-- ---------------------------------------------------------------

/-- compute_mean_embedding (functions/embedding.py, lines 110-143):
raises ValueError on an empty list or mismatched dimensions, else the
coordinatewise mean. -/
def computeMeanEmbedding (embeddings : List (List ℚ)) : Except PyError (List ℚ) :=
  match embeddings with
  | [] => .error (.valueError "Cannot compute mean of empty embeddings list")
  | e0 :: _ =>
    let dim := e0.length
    if embeddings.all (fun e => e.length = dim) then
      .ok ((List.range dim).map (fun i =>
        (embeddings.foldl (fun acc e => acc + e.getD i 0) 0) / (embeddings.length : ℚ)))
    else .error (.valueError "All embeddings must have the same dimension")

-- ---------------------------------------------------------------
-- functions/similarity.py
-- ---------------------------------------------------------------

/-- Exact representation of a cosine-similarity value
(similarity.py, cosine_similarity, lines 14-38): the score of two
equal-length vectors is dot/(sqrt magSq1 * sqrt magSq2), or 0.0 when a
magnitude is zero.  Keeping the three exact rationals lets the
descending sort compare score values exactly instead of through
irrational square roots. -/
structure CosScore where
  dot : ℚ
  magSq1 : ℚ
  magSq2 : ℚ
deriving DecidableEq, Repr

/-- The representation of the literal score 0.0 (both the zero-magnitude
fallback inside cosine_similarity and the 0.0 threshold default). -/
def CosScore.zero : CosScore := ⟨0, 0, 0⟩

/-- Sign of the represented score value. -/
def CosScore.sign (s : CosScore) : ℤ :=
  if s.magSq1 = 0 ∨ s.magSq2 = 0 then 0
  else if s.dot > 0 then 1
  else if s.dot < 0 then -1
  else 0

/-- Exact comparison of two represented score values
("value s ≤ value t"): signs are compared first; for equal nonzero signs
the inequality d1/sqrt(A) ≤ d2/sqrt(B) (A, B > 0) is decided by
cross-multiplying and squaring. -/
def CosScore.le (s t : CosScore) : Bool :=
  let ss := s.sign
  let ts := t.sign
  if ss < ts then true
  else if ts < ss then false
  else if ss = 1 then
    s.dot * s.dot * (t.magSq1 * t.magSq2) ≤ t.dot * t.dot * (s.magSq1 * s.magSq2)
  else if ss = -1 then
    t.dot * t.dot * (s.magSq1 * s.magSq2) ≤ s.dot * s.dot * (t.magSq1 * t.magSq2)
  else true

/-- cosine_similarity (similarity.py, lines 14-38) on equal-length
vectors, in the exact representation.  The ValueError branch for unequal
lengths is handled at the call site in filter_assets_by_similarity,
which catches it and skips the asset. -/
def cosineSimilarity (v w : List ℚ) : CosScore :=
  { dot := ((v.zip w).map (fun p => p.1 * p.2)).sum
    magSq1 := (v.map (fun a => a * a)).sum
    magSq2 := (w.map (fun a => a * a)).sum }

/-- AssetWithScore (functions/types.py). -/
structure AssetWithScore where
  asset : Asset
  score : CosScore
deriving DecidableEq, Repr

/-- SimilarityInput (functions/types.py). -/
structure SimilarityInput where
  targetEmbedding : List ℚ
  assets : List Asset
  topFraction : ℚ := 1/2
deriving DecidableEq, Repr

/-- SimilarityOutput (functions/types.py). -/
structure SimilarityOutput where
  filteredAssets : List Asset
  scoredAssets : List AssetWithScore
  thresholdScore : CosScore
deriving DecidableEq, Repr

/-- The comparison embedding "scored_assets.sort(key=score, reverse=True)". -/
def assetScoreGE (x y : AssetWithScore) : Prop := CosScore.le y.score x.score = true

instance : DecidableRel assetScoreGE :=
  fun x y => inferInstanceAs (Decidable (CosScore.le y.score x.score = true))

/-- The loop body of filter_assets_by_similarity (lines 58-67): an asset
is skipped when its embedding is None or empty, or when its length
differs from the target (the ValueError raised by cosine_similarity is
caught and the asset skipped); otherwise it is scored. -/
def scoreAssetForTarget (targetEmbedding : List ℚ) (a : Asset) :
    Option AssetWithScore :=
  match a.embedding with
  | none => none
  | some e =>
    if e.isEmpty then none
    else if e.length ≠ targetEmbedding.length then none
    else some { asset := a, score := cosineSimilarity targetEmbedding e }

/-- filter_assets_by_similarity (similarity.py, lines 41-83).  The
scored survivors are sorted descending by score (stable) and the top
max(1, int(count * top_fraction)) are kept. -/
def filterAssetsBySimilarity (input : SimilarityInput) : SimilarityOutput :=
  let scoredAssets := input.assets.filterMap (scoreAssetForTarget input.targetEmbedding)
  let sortedScored := List.insertionSort assetScoreGE scoredAssets
  let numToKeep := (max 1 (pyIntOfRat ((scoredAssets.length : ℚ) * input.topFraction))).toNat
  let filtered := sortedScored.take numToKeep
  let thresholdScore := match filtered.getLast? with
    | some x => x.score
    | none => CosScore.zero
  { filteredAssets := filtered.map (·.asset)
    scoredAssets := sortedScored
    thresholdScore := thresholdScore }

/-- One element of Python grouping: append to the existing entry of the
element's key, or add a fresh entry at the end. -/
def pyGroupByStep {α κ : Type} [DecidableEq κ] (key : α → κ)
    (groups : List (κ × List α)) (a : α) : List (κ × List α) :=
  if groups.any (fun g => g.1 = key a) then
    groups.map (fun g => if g.1 = key a then (g.1, g.2 ++ [a]) else g)
  else groups ++ [(key a, [a])]

/-- Python grouping into an insertion-ordered dict of lists
(defaultdict(list) in asset_selection.py, a plain dict built in
similarity.py line 144-149 - both preserve first-seen key order). -/
def pyGroupBy {α κ : Type} [DecidableEq κ] (key : α → κ) (xs : List α) :
    List (κ × List α) :=
  xs.foldl (pyGroupByStep key) []

/-- The grouping key used by filter_assets_by_iteration (line 146):
the asset-type value string, "unknown" when asset_type is missing. -/
def assetTypeKey (a : Asset) : String :=
  match a.assetType with
  | some t => t.value
  | none => "unknown"

/-- The per-type target vector of filter_assets_by_iteration (lines
155-159): the winner mean embedding of the type when the
type_embeddings dict is truthy (non-None and non-empty) and has the
key, else the global target embedding. -/
def chosenTypeEmbedding (targetEmbedding : List ℚ)
    (typeEmbeddings : Option (List (String × List ℚ))) (k : String) : List ℚ :=
  match typeEmbeddings with
  | some te =>
    if te.isEmpty then targetEmbedding
    else match te.lookup k with
      | some e => e
      | none => targetEmbedding
  | none => targetEmbedding

/-- filter_assets_by_iteration (similarity.py, lines 111-170).
Iteration 0 returns the pool unchanged; otherwise each asset-type group
is filtered separately with top_fraction 1/(iteration+1), against the
group's winner mean embedding when the type_embeddings dict is truthy
and has the key, else against the global target embedding. -/
def filterAssetsByIteration (targetEmbedding : List ℚ) (assets : List Asset)
    (iteration : Nat) (typeEmbeddings : Option (List (String × List ℚ))) :
    List Asset :=
  if iteration = 0 then assets
  else
    let fraction : ℚ := 1 / ((iteration : ℚ) + 1)
    let assetsByType := pyGroupBy assetTypeKey assets
    assetsByType.foldl (fun acc g =>
      acc ++ (filterAssetsBySimilarity
        { targetEmbedding := chosenTypeEmbedding targetEmbedding typeEmbeddings g.1
          assets := g.2, topFraction := fraction }).filteredAssets)
      []

/-- compute_type_embeddings_from_winners (similarity.py, lines 173-205):
group the winner assets with usable embeddings by type-value string and
take the mean embedding per type.  compute_mean_embedding's ValueError
for mismatched dimensions propagates. -/
def computeTypeEmbeddingsFromWinners (winnerAssets : List Asset) :
    Except PyError (List (String × List ℚ)) :=
  let usable := winnerAssets.filterMap (fun a =>
    match a.embedding with
    | none => none
    | some e => if e.isEmpty then none else some (assetTypeKey a, e))
  let embeddingsByType := pyGroupBy (fun p : String × List ℚ => p.1) usable
  embeddingsByType.foldlM (fun acc g =>
    if g.2.isEmpty then pure acc
    else do
      let m ← computeMeanEmbedding (g.2.map (·.2))
      pure (acc ++ [(g.1, m)])) []

-- ---------------------------------------------------------------
-- functions/asset_selection.py
-- ---------------------------------------------------------------

/-- AssetSet (functions/types.py): an insertion-ordered dict from asset
type to one asset.  The key is the asset_type attribute, which the
grouping code reads without a None guard, hence Option. -/
structure AssetSet where
  assets : List (Option AssetType × Asset)
deriving DecidableEq, Repr

/-- AssetSet.asset_ids: the ids of the set's assets in dict order. -/
def AssetSet.assetIds (s : AssetSet) : List PyUUID :=
  s.assets.map (fun p => p.2.id)

/-- AssetSelectionInput (functions/types.py); used_asset_ids is a set,
modelled as a list queried by membership. -/
structure AssetSelectionInput where
  assets : List Asset
  numSets : Nat := 5
  usedAssetIds : List PyUUID := []
deriving DecidableEq, Repr

/-- AssetSelectionOutput (functions/types.py). -/
structure AssetSelectionOutput where
  assetSets : List AssetSet
  assetsByType : List (Option AssetType × List Asset)
deriving DecidableEq, Repr

/-- group_assets_by_type (asset_selection.py, lines 16-29). -/
def groupAssetsByType (assets : List Asset) : List (Option AssetType × List Asset) :=
  pyGroupBy (fun a => a.assetType) assets

/-- Lookup in an insertion-ordered dict modelled as an association list. -/
def dictLookup {κ β : Type} [DecidableEq κ] (d : List (κ × β)) (k : κ) : Option β :=
  (d.find? (fun p => p.1 = k)).map (·.2)

/-- Store into an insertion-ordered dict modelled as an association list. -/
def dictStore {κ β : Type} [DecidableEq κ] (d : List (κ × β)) (k : κ) (v : β) :
    List (κ × β) :=
  if d.any (fun p => p.1 = k) then d.map (fun p => if p.1 = k then (k, v) else p)
  else d ++ [(k, v)]

/-- State threaded through select_asset_sets: the per-type used-id sets
and a counter numbering the successive random.choice calls. -/
structure SelectionState where
  usedIdsPerType : List (Option AssetType × List PyUUID)
  randCalls : Nat
deriving DecidableEq, Repr

/-- One inner-loop pass of select_asset_sets (lines 65-81) for a single
asset-type group: pick one asset of the group, preferring ones not yet
used, resetting the used set when the group is exhausted.  random.choice
is an oracle "rand call-index length" reduced modulo the length. -/
def selectFromGroup (rand : Nat → Nat → Nat) (st : SelectionState)
    (selected : List (Option AssetType × Asset))
    (g : Option AssetType × List Asset) :
    SelectionState × List (Option AssetType × Asset) :=
  match g.2 with
  | [] => (st, selected)
  | a0 :: rest =>
    let typeAssets := a0 :: rest
    let usedIds := (dictLookup st.usedIdsPerType g.1).getD []
    let availablePre := typeAssets.filter (fun a => ¬ usedIds.contains a.id)
    let (usedIds', available) :=
      if availablePre.isEmpty then ([], typeAssets) else (usedIds, availablePre)
    let n := available.length
    let chosen := available.getD (rand st.randCalls n % n) a0
    ({ usedIdsPerType := dictStore st.usedIdsPerType g.1 (usedIds' ++ [chosen.id])
       randCalls := st.randCalls + 1 },
     dictStore selected g.1 chosen)

/-- select_asset_sets (asset_selection.py, lines 32-90). -/
def selectAssetSets (rand : Nat → Nat → Nat) (input : AssetSelectionInput) :
    AssetSelectionOutput :=
  let assetsByType := groupAssetsByType input.assets
  if assetsByType.isEmpty then { assetSets := [], assetsByType := [] }
  else
    let initUsed : List (Option AssetType × List PyUUID) :=
      input.assets.foldl (fun u a =>
        if input.usedAssetIds.contains a.id then
          dictStore u a.assetType (((dictLookup u a.assetType).getD []) ++ [a.id])
        else u) []
    let step := fun (acc : SelectionState × List AssetSet) (_ : Nat) =>
      let (st, sets) := acc
      let (st', selected) := assetsByType.foldl
        (fun (p : SelectionState × List (Option AssetType × Asset)) g =>
          selectFromGroup rand p.1 p.2 g)
        (st, [])
      (st', if selected.isEmpty then sets else sets ++ [⟨selected⟩])
    let (_, sets) := (List.range input.numSets).foldl step (⟨initUsed, 0⟩, [])
    { assetSets := sets, assetsByType := assetsByType }

/-- get_base_and_reference_assets (asset_selection.py, lines 116-147). -/
def getBaseAndReferenceAssets (s : AssetSet)
    (baseAssetType : Option AssetType := some .model) :
    Option Asset × List Asset :=
  let base := dictLookup s.assets baseAssetType
  let refs := (s.assets.filter (fun p => p.1 ≠ baseAssetType)).map (·.2)
  match base with
  | some _ => (base, refs)
  | none =>
    match s.assets with
    | [] => (none, refs)
    | (t0, a0) :: _ => (some a0, (s.assets.filter (fun p => p.1 ≠ t0)).map (·.2))

-- ---------------------------------------------------------------
-- campaigns/service.py : CampaignService
-- ---------------------------------------------------------------

/-- FlowStepCreate (campaigns/models.py). -/
structure FlowStepCreate where
  flowId : PyUUID
  inputEmbedding : Option (List ℚ) := none
  inputInsights : Option String := none
deriving DecidableEq, Repr

/-- CampaignService.create_step (campaigns/service.py, lines 153-166):
the new step's iteration is latest+1, or 0 when the flow has no steps;
the state is always GENERATING. -/
def serviceCreateStep (db : DB) (data : FlowStepCreate) : FlowStep × DB :=
  let latest := getLatestStep db data.flowId
  let iteration := match latest with
    | some s => s.iteration + 1
    | none => 0
  let step : FlowStep :=
    { id := db.nextId, flowId := data.flowId, iteration := iteration
      state := .generating, inputEmbedding := data.inputEmbedding
      inputInsights := data.inputInsights }
  (step, { repoCreateStep db step with nextId := db.nextId + 1 })

/-- CampaignService.get_step: raises StepNotFoundError when missing. -/
def serviceGetStep (db : DB) (stepId : PyUUID) : Except PyError FlowStep :=
  match getStep db stepId with
  | some s => .ok s
  | none => .error (.stepNotFound stepId)

/-- CampaignService.transition_to_collecting (campaigns/service.py,
lines 183-195): only from GENERATING, and only with an existing
generation result; otherwise raises without writing. -/
def transitionToCollecting (db : DB) (stepId : PyUUID) :
    Except PyError (FlowStep × DB) :=
  match serviceGetStep db stepId with
  | .error e => .error e
  | .ok step =>
  if step.state ≠ FlowStepState.generating then
    .error (.invalidStateTransition step.state .collectingData)
  else
    match getGenerationResultByStep db stepId with
    | none => .error (.valueError "Cannot transition: generation result not created")
    | some _ =>
      let step' := { step with state := FlowStepState.collectingData }
      .ok (step', repoUpdateStep db step')

/-- CampaignService.transition_to_analyzing (lines 197-204): only from
COLLECTING_DATA. -/
def transitionToAnalyzing (db : DB) (stepId : PyUUID) :
    Except PyError (FlowStep × DB) :=
  match serviceGetStep db stepId with
  | .error e => .error e
  | .ok step =>
  if step.state ≠ FlowStepState.collectingData then
    .error (.invalidStateTransition step.state .analyzing)
  else
    let step' := { step with state := FlowStepState.analyzing }
    .ok (step', repoUpdateStep db step')

/-- CampaignService.transition_to_completed (lines 206-218): only from
ANALYZING, and only with an existing analysis result. -/
def transitionToCompleted (db : DB) (stepId : PyUUID) :
    Except PyError (FlowStep × DB) :=
  match serviceGetStep db stepId with
  | .error e => .error e
  | .ok step =>
  if step.state ≠ FlowStepState.analyzing then
    .error (.invalidStateTransition step.state .completed)
  else
    match getAnalysisResultByStep db stepId with
    | none => .error (.valueError "Cannot transition: analysis result not created")
    | some _ =>
      let step' := { step with state := FlowStepState.completed }
      .ok (step', repoUpdateStep db step')

/-- CampaignService.create_generation_result (lines 224-237): insert the
row, then link each selected asset (folded into the id list). -/
def serviceCreateGenerationResult (db : DB) (stepId : PyUUID) (prompt : String)
    (promptNotes : Option String) (selectedAssetIds : List PyUUID) :
    GenerationResult × DB :=
  let r : GenerationResult :=
    { id := db.nextId, stepId := stepId, prompt := prompt
      promptNotes := promptNotes, selectedAssetIds := selectedAssetIds }
  (r, { repoCreateGenerationResult db r with nextId := db.nextId + 1 })

/-- CampaignService.create_generated_image (lines 247-261). -/
def serviceCreateGeneratedImage (db : DB) (generationResultId : PyUUID)
    (fileName : String) (metadataTags : Option (List String))
    (modelVersion : Option String) (sourceAssetIds : List PyUUID) :
    GeneratedImage × DB :=
  let img : GeneratedImage :=
    { id := db.nextId, generationResultId := generationResultId
      fileName := fileName, metadataTags := metadataTags
      modelVersion := modelVersion, sourceAssetIds := sourceAssetIds }
  (img, { repoCreateGeneratedImage db img with nextId := db.nextId + 1 })

/-- CampaignService.create_image_metrics (lines 274-283): builds the raw
row and hands it to the repository, which computes the derived ratios
before inserting. -/
def serviceCreateImageMetrics (db : DB) (imageId : PyUUID)
    (impressions clicks conversions : ℤ) (cost : ℚ) : ImageMetrics × DB :=
  let raw : ImageMetrics :=
    { imageId := imageId, impressions := impressions, clicks := clicks
      conversions := conversions, cost := cost }
  let (db', m) := repoCreateImageMetrics db raw
  (m, db')

/-- CampaignService.create_analysis_result (lines 293-302). -/
def serviceCreateAnalysisResult (db : DB) (stepId : PyUUID)
    (winnerImageIds : List PyUUID) (outputEmbedding : List ℚ)
    (qualitativeDiff : String) (diffTags : List String) :
    AnalysisResult × DB :=
  let r : AnalysisResult :=
    { id := db.nextId, stepId := stepId, winnerImageIds := winnerImageIds
      outputEmbedding := outputEmbedding, qualitativeDiff := qualitativeDiff
      diffTags := diffTags }
  (r, { repoCreateAnalysisResult db r with nextId := db.nextId + 1 })

-- ---------------------------------------------------------------
-- functions/orchestrator.py : job types and job discovery
-- ---------------------------------------------------------------

/-- JobType (orchestrator.py, lines 58-66). -/
inductive JobType where
  | createFirstStep
  | runGenerating
  | runCollectingData
  | runAnalyzing
  | createNextIteration
  | campaignComplete
deriving DecidableEq, Repr

/-- Job (orchestrator.py, lines 83-93); ordering compares priority,
lower number = higher priority. -/
structure Job where
  jobType : JobType
  flowId : PyUUID
  stepId : Option PyUUID := none
  priority : Nat := 0
deriving DecidableEq, Repr

/-- The comparison embedding "jobs.sort()" driven by Job.__lt__
(priority only); a stable sort under it keeps equal priorities in scan
order, as Python's stable sort does. -/
def jobPriorityLE (a b : Job) : Prop := a.priority ≤ b.priority

instance : DecidableRel jobPriorityLE :=
  fun a b => inferInstanceAs (Decidable (a.priority ≤ b.priority))

/-- JobResult (orchestrator.py, lines 96-104); the free-form data dict
is modelled as a string-to-string association list. -/
structure JobResult where
  job : Job
  success : Bool
  nextJob : Option Job := none
  error : Option String := none
  data : List (String × String) := []
deriving DecidableEq, Repr

/-- FlowOrchestrator._get_job_for_flow (orchestrator.py, lines 299-362):
derive the one due job of a flow from persisted state. -/
def getJobForFlow (db : DB) (flow : CampaignFlow) : Option Job :=
  match getLatestStep db flow.id with
  | none =>
    some { jobType := .createFirstStep, flowId := flow.id, priority := 0 }
  | some latestStep =>
    match latestStep.state with
    | .generating =>
      -- the source branches on whether a generation result exists but
      -- returns the same job in both arms (lines 313-328)
      match getGenerationResultByStep db latestStep.id with
      | none =>
        some { jobType := .runGenerating, flowId := flow.id
               stepId := some latestStep.id, priority := 1 }
      | some _ =>
        some { jobType := .runGenerating, flowId := flow.id
               stepId := some latestStep.id, priority := 1 }
    | .collectingData =>
      some { jobType := .runCollectingData, flowId := flow.id
             stepId := some latestStep.id, priority := 2 }
    | .analyzing =>
      some { jobType := .runAnalyzing, flowId := flow.id
             stepId := some latestStep.id, priority := 3 }
    | .completed =>
      match db.campaigns.find? (fun c => c.id = flow.campaignId) with
      | some campaign =>
        match db.specs.find? (fun sp => sp.id = campaign.campaignSpecId) with
        | some spec =>
          if (latestStep.iteration : ℤ) < spec.maxIterations - 1 then
            some { jobType := .createNextIteration, flowId := flow.id
                   stepId := some latestStep.id, priority := 0 }
          else none
        | none => none
      | none => none

/-- The flow scan of get_next_job / get_all_pending_jobs (lines 249-257,
283-289): either the flows of one campaign, or the flows of every
campaign in listing order. -/
def flowsForDiscovery (db : DB) (campaignId : Option PyUUID) : List CampaignFlow :=
  match campaignId with
  | some cid => getFlowsByCampaign db cid
  | none => (getCampaigns db).foldl (fun acc c => acc ++ getFlowsByCampaign db c.id) []

/-- The due jobs collected per flow by the discovery scan. -/
def dueJobs (db : DB) (campaignId : Option PyUUID) : List Job :=
  (flowsForDiscovery db campaignId).filterMap (getJobForFlow db)

/-- FlowOrchestrator.get_next_job (orchestrator.py, lines 234-269):
stable-sort the due jobs by priority and return the first. -/
def getNextJob (db : DB) (campaignId : Option PyUUID := none) : Option Job :=
  (List.insertionSort jobPriorityLE (dueJobs db campaignId)).head?

/-- FlowOrchestrator.get_all_pending_jobs (orchestrator.py, lines
271-297). -/
def getAllPendingJobs (db : DB) (campaignId : Option PyUUID := none) : List Job :=
  List.insertionSort jobPriorityLE (dueJobs db campaignId)

-- ---------------------------------------------------------------
-- External adapters (spec section 6) as a deterministic oracle
-- ---------------------------------------------------------------

/-- ImageGenerationResult (functions/image_generator.py, lines 87-97). -/
structure ImageGenerationResult where
  success : Bool
  imageUrl : Option String := none
  metadataTags : List String := []
  modelVersion : String := "flux-2-pro"
  error : Option String := none
deriving DecidableEq, Repr

/-- The per-image row of the analytics-synthesis adapter output
(GeneratedAnalytics in functions/types.py); only the four raw fields the
orchestrator persists. -/
structure GeneratedAnalyticsRow where
  imageId : PyUUID
  impressions : ℤ
  clicks : ℤ
  conversions : ℤ
  cost : ℚ
deriving DecidableEq, Repr

/-- ImageAnalysisOutput (functions/types.py); the fields the
orchestrator reads. -/
structure ImageAnalysisOutputM where
  visualSimilarities : String
  differentiationTags : List String
deriving DecidableEq, Repr

/-- The external collaborators of the orchestrator, as a deterministic
oracle (spec section 6 treats them as black boxes with documented
contracts; section 1 puts the concrete prompt templates out of scope).
rand is the random.choice oracle (call index, list length) -> index;
generateImage takes the enumerate index, the per-image prompt, the base
asset and the reference assets; the describe adapters map a file
name/url to the description text (they never raise); the three
LLM adapters return the structured values the orchestrator consumes. -/
structure ExternalEnv where
  rand : Nat → Nat → Nat
  buildPrompt : String → AssetSet → String
  generateImage : Nat → String → Asset → List Asset → Nat → Nat → ImageGenerationResult
  describeImageUrl : String → String
  describeImagePath : String → String
  generateAnalytics : List (PyUUID × String) → Option TargetGroup → List GeneratedAnalyticsRow
  analyzeImages : List (PyUUID × String) → List (PyUUID × String) → ImageAnalysisOutputM
  modifyPrompt : String → List String → List String → String → Option TargetGroup → String

-- ---------------------------------------------------------------
-- functions/orchestrator.py : job execution
-- ---------------------------------------------------------------

/-- OrchestrationConfig (orchestrator.py, lines 69-80). -/
structure OrchestrationConfig where
  numImagesPerStep : Nat := 5
  topNWinners : Nat := 2
  descriptionModel : String := "gpt-4o-mini"
  embeddingModel : String := "text-embedding-3-small"
  analyticsModel : String := "gpt-4o-mini"
  analysisModel : String := "gpt-4o-mini"
  imageWidth : Nat := 1024
  imageHeight : Nat := 1024
deriving DecidableEq, Repr

/-- The value string of the JobType str-enum. -/
def JobType.value : JobType → String
  | .createFirstStep => "create_first_step"
  | .runGenerating => "run_generating"
  | .runCollectingData => "run_collecting_data"
  | .runAnalyzing => "run_analyzing"
  | .createNextIteration => "create_next_iteration"
  | .campaignComplete => "campaign_complete"

/-- Resolution of a source-asset relationship list (the asset rows linked
by the stored ids, in link order). -/
def resolveAssets (db : DB) (ids : List PyUUID) : List Asset :=
  ids.filterMap (fun i => db.assets.find? (fun a => a.id = i))

/-- The prompt chosen at the start of RUN_GENERATING (orchestrator.py,
lines 481-485): the step's input_insights when truthy (present and
non-empty), else the flow's initial prompt; reading initial_prompt off a
missing flow raises AttributeError. -/
def choosePromptForStep (step : FlowStep) (flowOpt : Option CampaignFlow) :
    Except PyError String :=
  if pyTruthyStr step.inputInsights then .ok (step.inputInsights.getD "")
  else
    match flowOpt with
    | some flow => .ok flow.initialPrompt
    | none => .error (.attributeError "NoneType" "initial_prompt")

/-- The asset-pool narrowing block of _execute_generating
(orchestrator.py, lines 487-530): when the step has a truthy
input_embedding and iteration > 0, compute per-type winner mean
embeddings from the previous step's analysis (when available) and filter
the pool by iteration; otherwise the pool is unchanged. -/
def narrowAssetsForStep (db : DB) (job : Job) (step : FlowStep)
    (assets : List Asset) : Except PyError (List Asset) := do
  if pyTruthyList step.inputEmbedding ∧ step.iteration > 0 then
    let previousSteps := getStepsByFlow db job.flowId
    let previousStep := previousSteps.find? (fun s => s.iteration = step.iteration - 1)
    let typeEmbeddings : Option (List (String × List ℚ)) ←
      match previousStep with
      | none => pure none
      | some prev =>
        match getAnalysisResultByStep db prev.id with
        | none => pure none
        | some prevAnalysis =>
          if prevAnalysis.winnerImageIds.isEmpty then pure none
          else
            let winnerAssets :=
              match getGenerationResultByStep db prev.id with
              | none => []
              | some prevGen =>
                (getImagesByGenerationResult db prevGen.id).foldl
                  (fun acc img =>
                    if prevAnalysis.winnerImageIds.contains img.id then
                      acc ++ resolveAssets db img.sourceAssetIds
                    else acc) []
            if winnerAssets.isEmpty then pure none
            else do
              let te ← computeTypeEmbeddingsFromWinners winnerAssets
              pure (some te)
    pure (filterAssetsByIteration (step.inputEmbedding.getD []) assets
      step.iteration typeEmbeddings)
  else
    pure assets

/-- The image-generation loop of _execute_generating (orchestrator.py,
lines 576-621): for each selected asset set, build the per-image prompt,
split base/reference assets (skipping the set if no base), call the
generation adapter, and persist a GeneratedImage on success. -/
def generateImageStep (env : ExternalEnv) (cfg : OrchestrationConfig)
    (genResultId : PyUUID) (prompt : String)
    (acc : DB × List PyUUID) (entry : Nat × AssetSet) : DB × List PyUUID :=
  let (db, generatedIds) := acc
  let (i, assetSet) := entry
  let promptOut := env.buildPrompt prompt assetSet
  let (baseAsset, referenceAssets) := getBaseAndReferenceAssets assetSet
  match baseAsset with
  | none => (db, generatedIds)
  | some base =>
    let imageResult := env.generateImage i promptOut base referenceAssets
      cfg.imageWidth cfg.imageHeight
    if imageResult.success ∧ pyTruthyStr imageResult.imageUrl then
      let (img, db') := serviceCreateGeneratedImage db genResultId
        (imageResult.imageUrl.getD "") (some imageResult.metadataTags)
        (some imageResult.modelVersion) assetSet.assetIds
      (db', generatedIds ++ [img.id])
    else (db, generatedIds)

def generateImagesLoop (env : ExternalEnv) (cfg : OrchestrationConfig)
    (genResultId : PyUUID) (prompt : String) (assetSets : List AssetSet)
    (db : DB) : DB × List PyUUID :=
  assetSets.enum.foldl (generateImageStep env cfg genResultId prompt) (db, [])

/-- FlowOrchestrator._execute_generating (orchestrator.py, lines
468-655).  An error value carries the database as of the raise (every
earlier repository write already committed). -/
def executeGenerating (env : ExternalEnv) (cfg : OrchestrationConfig)
    (db : DB) (job : Job) (assets : List Asset) :
    Except (DB × PyError) (DB × JobResult) :=
  match job.stepId with
  | none => .ok (db, { job := job, success := false, error := some "No step_id provided" })
  | some stepId =>
    match serviceGetStep db stepId with
    | .error e => .error (db, e)
    | .ok step =>
      let flowOpt := getFlow db job.flowId
      match choosePromptForStep step flowOpt with
      | .error e => .error (db, e)
      | .ok prompt =>
        match narrowAssetsForStep db job step assets with
        | .error e => .error (db, e)
        | .ok currentAssets =>
          let selection := selectAssetSets env.rand
            { assets := currentAssets, numSets := cfg.numImagesPerStep }
          -- all_selected_asset_ids is a Python set; modelled as
          -- first-occurrence dedup (the set's listing order is arbitrary)
          let allSelectedAssetIds :=
            (selection.assetSets.foldl (fun acc s => acc ++ s.assetIds) []).dedup
          match getGenerationResultByStep db step.id with
          | some _ =>
            -- the source calls self.repository.delete_generation_result,
            -- but CampaignRepository defines no such method: the call
            -- raises AttributeError before anything is written
            .error (db, .attributeError "CampaignRepository" "delete_generation_result")
          | none =>
            let (genResult, db2) := serviceCreateGenerationResult db step.id prompt
              step.inputInsights allSelectedAssetIds
            let (db3, generatedImageIds) := generateImagesLoop env cfg genResult.id
              prompt selection.assetSets db2
            if generatedImageIds.isEmpty then
              .ok (db3,
                { job := job, success := false
                  error := some "No images were generated"
                  data := [("step_id", toString step.id),
                           ("asset_sets_attempted", toString selection.assetSets.length)] })
            else
              match transitionToCollecting db3 step.id with
              | .error e => .error (db3, e)
              | .ok (_, db4) =>
                .ok (db4,
                  { job := job, success := true
                    nextJob := some { jobType := .runCollectingData
                                      flowId := job.flowId
                                      stepId := some step.id, priority := 2 }
                    data := [("step_id", toString step.id),
                             ("generated_images", toString generatedImageIds.length),
                             ("image_ids", toString generatedImageIds)] })

/-- FlowOrchestrator._execute_collecting_data (orchestrator.py, lines
657-736). -/
def executeCollectingData (env : ExternalEnv) (db : DB) (job : Job) :
    Except (DB × PyError) (DB × JobResult) :=
  match job.stepId with
  | none => .ok (db, { job := job, success := false, error := some "No step_id provided" })
  | some stepId =>
    match serviceGetStep db stepId with
    | .error e => .error (db, e)
    | .ok step =>
      match getFlow db job.flowId with
      | none => .error (db, .attributeError "NoneType" "target_group")
      | some flow =>
        let targetGroup := db.targetGroups.find? (fun t => t.id = flow.targetGroupId)
        match getGenerationResultByStep db step.id with
        | none => .ok (db, { job := job, success := false
                             error := some "No generation result found" })
        | some genResult =>
          let images := getImagesByGenerationResult db genResult.id
          if images.isEmpty then
            .ok (db, { job := job, success := false, error := some "No images found" })
          else
            let (db2, imageDescriptions) := images.foldl
              (fun (acc : DB × List (PyUUID × String)) image =>
                let (db, descs) := acc
                let fileName := image.fileName
                let description :=
                  if fileName.startsWith "http://" ∨ fileName.startsWith "https://" then
                    env.describeImageUrl fileName
                  else
                    env.describeImagePath fileName
                let oldTags := image.metadataTags.getD []
                let image' := { image with
                  metadataTags := some (oldTags ++ ["description:" ++ description.take 500]) }
                (repoUpdateImage db image', descs ++ [(image.id, description)]))
              (db, [])
            let analyticsRows := env.generateAnalytics imageDescriptions targetGroup
            let db3 := analyticsRows.foldl
              (fun db row =>
                (serviceCreateImageMetrics db row.imageId row.impressions row.clicks
                  row.conversions row.cost).2)
              db2
            match transitionToAnalyzing db3 step.id with
            | .error e => .error (db3, e)
            | .ok (_, db4) =>
              .ok (db4,
                { job := job, success := true
                  nextJob := some { jobType := .runAnalyzing, flowId := job.flowId
                                    stepId := some step.id, priority := 3 }
                  data := [("step_id", toString step.id),
                           ("images_processed", toString images.length),
                           ("analytics_generated", toString analyticsRows.length)] })

/-- FlowOrchestrator._execute_analyzing (orchestrator.py, lines
738-865). -/
def executeAnalyzing (env : ExternalEnv) (cfg : OrchestrationConfig)
    (db : DB) (job : Job) (campaignSpec : CampaignSpec) :
    Except (DB × PyError) (DB × JobResult) :=
  match job.stepId with
  | none => .ok (db, { job := job, success := false, error := some "No step_id provided" })
  | some stepId =>
    match serviceGetStep db stepId with
    | .error e => .error (db, e)
    | .ok step =>
      match getFlow db job.flowId with
      | none => .error (db, .attributeError "NoneType" "target_group")
      | some flow =>
        let targetGroup := db.targetGroups.find? (fun t => t.id = flow.targetGroupId)
        match getGenerationResultByStep db step.id with
        | none => .ok (db, { job := job, success := false
                             error := some "No generation result found" })
        | some genResult =>
          let images := getImagesByGenerationResult db genResult.id
          let imageAnalytics : List (PyUUID × ImageAnalyticsDict) :=
            images.foldl (fun acc image =>
              match getImageMetrics db image.id with
              | none => acc
              | some m => acc ++
                [(image.id,
                  { interactionRate := some (m.ctr * (13/10))
                    interactions := some (m.clicks : ℚ)
                    conversionValue := some ((m.conversions : ℚ) * 40)
                    conversionRate := some m.conversionRate
                    ctr := some m.ctr })]) []
          let imageDescriptions : List (PyUUID × String) :=
            images.foldl (fun acc image =>
              match (image.metadataTags.getD []).find?
                  (fun tag => tag.startsWith "description:") with
              | some tag => dictStore acc image.id (tag.drop 12)
              | none => acc) []
          let (topIds, bottomIds) := selectTopImagesByScore imageAnalytics cfg.topNWinners
          let winningDescriptions := topIds.map
            (fun imgId => (imgId, (dictLookup imageDescriptions imgId).getD "No description"))
          let losingDescriptions := bottomIds.map
            (fun imgId => (imgId, (dictLookup imageDescriptions imgId).getD "No description"))
          let analysisOutput := env.analyzeImages winningDescriptions losingDescriptions
          let currentPrompt := genResult.prompt
          let modifiedPrompt := env.modifyPrompt currentPrompt
            (winningDescriptions.map (·.2)) (losingDescriptions.map (·.2))
            analysisOutput.visualSimilarities targetGroup
          let winnerEmbeddings : List (List ℚ) :=
            images.foldl (fun acc image =>
              if topIds.contains image.id then
                acc ++ (resolveAssets db image.sourceAssetIds).filterMap
                  (fun asset => match asset.embedding with
                    | none => none
                    | some e => if e.isEmpty then none else some e)
              else acc) []
          let meanResult : Except PyError (List ℚ) :=
            if winnerEmbeddings.isEmpty then .ok (List.replicate 1536 0)
            else computeMeanEmbedding winnerEmbeddings
          match meanResult with
          | .error e => .error (db, e)
          | .ok meanEmbedding =>
            let (_, db2) := serviceCreateAnalysisResult db step.id topIds meanEmbedding
              modifiedPrompt analysisOutput.differentiationTags
            match transitionToCompleted db2 step.id with
            | .error e => .error (db2, e)
            | .ok (_, db3) =>
              let nextJob : Option Job :=
                if (step.iteration : ℤ) < campaignSpec.maxIterations - 1 then
                  some { jobType := .createNextIteration, flowId := job.flowId
                         stepId := some step.id, priority := 0 }
                else none
              .ok (db3,
                { job := job, success := true, nextJob := nextJob
                  data := [("step_id", toString step.id),
                           ("winner_ids", toString topIds),
                           ("campaign_complete", toString nextJob.isNone)] })

/-- FlowOrchestrator._execute_create_first_step (orchestrator.py, lines
446-466). -/
def executeCreateFirstStep (db : DB) (job : Job) :
    Except (DB × PyError) (DB × JobResult) :=
  let (step, db') := serviceCreateStep db { flowId := job.flowId }
  .ok (db',
    { job := job, success := true
      nextJob := some { jobType := .runGenerating, flowId := job.flowId
                        stepId := some step.id, priority := 1 }
      data := [("step_id", toString step.id), ("iteration", toString step.iteration)] })

/-- FlowOrchestrator._execute_create_next_iteration (orchestrator.py,
lines 867-900): fails explicitly when the previous step has no analysis
result; otherwise the new step copies output_embedding into
input_embedding and qualitative_diff (the stored modified prompt) into
input_insights. -/
def executeCreateNextIteration (db : DB) (job : Job) :
    Except (DB × PyError) (DB × JobResult) :=
  match job.stepId with
  | none => .ok (db, { job := job, success := false, error := some "No step_id provided" })
  | some stepId =>
    match serviceGetStep db stepId with
    | .error e => .error (db, e)
    | .ok previousStep =>
      match getAnalysisResultByStep db previousStep.id with
      | none => .ok (db, { job := job, success := false
                           error := some "No analysis result found" })
      | some analysis =>
        let (newStep, db') := serviceCreateStep db
          { flowId := job.flowId
            inputEmbedding := some analysis.outputEmbedding
            inputInsights := some analysis.qualitativeDiff }
        .ok (db',
          { job := job, success := true
            nextJob := some { jobType := .runGenerating, flowId := job.flowId
                              stepId := some newStep.id, priority := 1 }
            data := [("new_step_id", toString newStep.id),
                     ("iteration", toString newStep.iteration)] })

/-- FlowOrchestrator.execute_job (orchestrator.py, lines 368-415):
dispatch on job type; any exception is caught at this boundary, the
session rolled back (all modelled writes are already committed, so the
database as of the raise stands) and reported as a failed JobResult
carrying the exception message. -/
def executeJob (env : ExternalEnv) (cfg : OrchestrationConfig) (db : DB)
    (job : Job) (assets : List Asset) (campaignSpec : CampaignSpec) :
    DB × JobResult :=
  let inner : Except (DB × PyError) (DB × JobResult) :=
    match job.jobType with
    | .createFirstStep => executeCreateFirstStep db job
    | .runGenerating => executeGenerating env cfg db job assets
    | .runCollectingData => executeCollectingData env db job
    | .runAnalyzing => executeAnalyzing env cfg db job campaignSpec
    | .createNextIteration => executeCreateNextIteration db job
    | .campaignComplete =>
      .ok (db, { job := job, success := false
                 error := some ("Unknown job type: " ++ job.jobType.value) })
  match inner with
  | .ok (db', result) => (db', result)
  | .error (dbAtRaise, e) =>
    (dbAtRaise, { job := job, success := false, error := some e.message })

-- ---------------------------------------------------------------
-- functions/scheduler.py : JobScheduler.run_once
-- ---------------------------------------------------------------

/-- SchedulerConfig (scheduler.py, lines 31-37); the poll interval does
not affect a single tick. -/
structure SchedulerConfig where
  maxJobsPerRun : Nat := 10
deriving DecidableEq, Repr

/-- JobScheduler._ensure_first_steps_created (scheduler.py, lines
136-174): for every flow with no step yet whose campaign spec exists,
execute a CREATE_FIRST_STEP job (with an empty asset list); per-flow
errors are logged and skipped. -/
def ensureFirstStepsCreated (env : ExternalEnv) (cfg : OrchestrationConfig)
    (db : DB) : DB :=
  (getCampaigns db).foldl
    (fun db campaign =>
      (getFlowsByCampaign db campaign.id).foldl
        (fun db flow =>
          match getLatestStep db flow.id with
          | some _ => db
          | none =>
            match db.specs.find? (fun sp => sp.id = campaign.campaignSpecId) with
            | none => db
            | some spec =>
              let job : Job := { jobType := .createFirstStep, flowId := flow.id
                                 priority := 0 }
              (executeJob env cfg db job [] spec).1)
        db)
    db

/-- The while-loop of JobScheduler.run_once (scheduler.py, lines
85-124).  The loop keeps running while jobs_processed < max_jobs_per_run
and a job is due; a missing flow/campaign/spec hits a "continue" that
does not increment the counter (in Python that would loop forever, here
it burns a unit of fuel); execute_job never raises, so the
exception-break branch at line 121-124 is unreachable.  The loop body
appends the JobResult and continues WHETHER OR NOT the result reports
success. -/
def runOnceLoop (env : ExternalEnv) (cfg : OrchestrationConfig)
    (maxJobsPerRun : Nat) :
    Nat → DB → Nat → List JobResult → DB × List JobResult
  | 0, db, _, results => (db, results)
  | fuel + 1, db, jobsProcessed, results =>
    if jobsProcessed < maxJobsPerRun then
      match getNextJob db none with
      | none => (db, results)
      | some job =>
        match getFlow db job.flowId with
        | none => runOnceLoop env cfg maxJobsPerRun fuel db jobsProcessed results
        | some flow =>
          match db.campaigns.find? (fun c => c.id = flow.campaignId) with
          | none => runOnceLoop env cfg maxJobsPerRun fuel db jobsProcessed results
          | some campaign =>
            match db.specs.find? (fun sp => sp.id = campaign.campaignSpecId) with
            | none => runOnceLoop env cfg maxJobsPerRun fuel db jobsProcessed results
            | some spec =>
              let assets := spec.baseAssets
              let (db', result) := executeJob env cfg db job assets spec
              runOnceLoop env cfg maxJobsPerRun fuel db' (jobsProcessed + 1)
                (results ++ [result])
    else (db, results)

/-- JobScheduler.run_once (scheduler.py, lines 62-134): ensure first
steps exist, then process jobs sequentially.  fuel bounds the number of
loop iterations; when no "continue" branch is hit, any fuel of at least
max_jobs_per_run + 1 gives the Python behaviour. -/
def runOnce (env : ExternalEnv) (cfg : OrchestrationConfig)
    (sched : SchedulerConfig) (fuel : Nat) (db : DB) : DB × List JobResult :=
  let db1 := ensureFirstStepsCreated env cfg db
  runOnceLoop env cfg sched.maxJobsPerRun fuel db1 0 []

-- ---------------------------------------------------------------
-- Specification-side definitions and concrete fixtures
-- ---------------------------------------------------------------

/-- Specification-side description of "lowest priority number, ties
broken by scan order": the first listed job attaining the minimum
priority. -/
def firstMinJob : List Job → Option Job
  | [] => none
  | j :: js =>
    match firstMinJob js with
    | none => some j
    | some b => if j.priority ≤ b.priority then some j else some b

/-- An asset survives the scoring loop of filter_assets_by_similarity
against a given target exactly when it has a non-empty embedding of the
target's length. -/
def usableForEmbedding (targetEmbedding : List ℚ) (a : Asset) : Bool :=
  match a.embedding with
  | none => false
  | some e => !e.isEmpty && e.length == targetEmbedding.length

/-- The multiset of step iterations of one flow. -/
def flowIterations (db : DB) (flowId : PyUUID) : List Nat :=
  (db.steps.filter (fun s => s.flowId = flowId)).map (fun s => s.iteration)

/-- A list of iteration numbers is contiguous from 0: it is a
permutation of 0, 1, ..., length-1. -/
def contiguousFrom0 (l : List Nat) : Prop := l.Perm (List.range l.length)

/-- Specification-side invariant of claim C9: every flow's iterations
are contiguous from 0. -/
def stepsContiguous (db : DB) : Prop :=
  ∀ flowId : PyUUID, contiguousFrom0 (flowIterations db flowId)

/-- Default orchestration config. -/
def cfg0 : OrchestrationConfig := {}

/-- A deterministic oracle whose image-generation adapter always fails
(all other adapters return fixed benign values). -/
def envFail : ExternalEnv :=
  { rand := fun _ _ => 0
    buildPrompt := fun p _ => p
    generateImage := fun _ _ _ _ _ _ => { success := false, error := some "generation failed" }
    describeImageUrl := fun _ => "a description"
    describeImagePath := fun _ => "a description"
    generateAnalytics := fun _ _ => []
    analyzeImages := fun _ _ => { visualSimilarities := "", differentiationTags := [] }
    modifyPrompt := fun p _ _ _ _ => p }

/-- A deterministic oracle whose image-generation adapter always
succeeds with a fixed url. -/
def envOk : ExternalEnv :=
  { envFail with
    generateImage := fun _ _ _ _ _ _ =>
      { success := true, imageUrl := some "http://img", metadataTags := [] } }

/-- Fixture: an asset of type product with a usable 1-dim embedding. -/
def assetP : Asset := { id := 1, assetType := some .product, embedding := some [1] }

/-- Fixture: a target group. -/
def tg0 : TargetGroup := { id := 50, name := "tg" }

/-- Fixture: a campaign spec with max_iterations 2. -/
def spec0 : CampaignSpec :=
  { id := 2, basePrompt := "base", maxIterations := 2
    baseAssets := [assetP], targetGroups := [tg0] }

/-- Fixture: the campaign of spec0. -/
def camp0 : Campaign := { id := 3, campaignSpecId := 2 }

/-- Fixture: the flow of camp0 for tg0. -/
def flow0 : CampaignFlow :=
  { id := 4, campaignId := 3, targetGroupId := 50, initialPrompt := "base" }

/-- Fixture: a first step of flow0 in GENERATING. -/
def stepGen : FlowStep := { id := 10, flowId := 4, iteration := 0, state := .generating }

/-- Fixture: an existing generation result for stepGen (as left behind by
a failed generation pass). -/
def genResult0 : GenerationResult := { id := 20, stepId := 10, prompt := "base" }

/-- Fixture: the RUN_GENERATING job for stepGen. -/
def jobGen : Job :=
  { jobType := .runGenerating, flowId := 4, stepId := some 10, priority := 1 }

/-- Fixture database: one campaign, one flow, one GENERATING step with a
stale generation result from a previously failed attempt. -/
def dbC4 : DB :=
  { specs := [spec0], campaigns := [camp0], flows := [flow0], steps := [stepGen]
    genResults := [genResult0], assets := [assetP], targetGroups := [tg0] }

/-- Fixture database: as dbC4 but with no stale generation result. -/
def dbGen : DB :=
  { specs := [spec0], campaigns := [camp0], flows := [flow0], steps := [stepGen]
    assets := [assetP], targetGroups := [tg0] }

/-- Fixture: a GENERATING step whose input_insights is the empty string. -/
def stepEmptyIns : FlowStep :=
  { id := 11, flowId := 4, iteration := 0, state := .generating
    inputInsights := some "" }

/-- Fixture database for the empty-insights prompt counterexample. -/
def dbC8 : DB :=
  { specs := [spec0], campaigns := [camp0], flows := [flow0], steps := [stepEmptyIns]
    targetGroups := [tg0] }

/-- Fixture: the RUN_GENERATING job for stepEmptyIns. -/
def jobGen8 : Job :=
  { jobType := .runGenerating, flowId := 4, stepId := some 11, priority := 1 }

/-- Fixture: an asset with no embedding at all. -/
def assetNoEmb : Asset := { id := 7, assetType := some .product }

/-- Fixture: the five-image analytics example of the spec (distinct ctr
values, everything else missing). -/
def analyticsExample : List (PyUUID × ImageAnalyticsDict) :=
  [(1, { ctr := some (1/100) }), (2, { ctr := some (2/100) }),
   (3, { ctr := some (3/100) }), (4, { ctr := some (4/100) }),
   (5, { ctr := some (5/100) })]

/-- Fixture: stepGen after completing its iteration. -/
def stepCompleted : FlowStep := { stepGen with state := .completed }

/-- Fixture: the analysis result of stepCompleted. -/
def anaRefined : AnalysisResult :=
  { id := 30, stepId := 10, winnerImageIds := [5]
    outputEmbedding := [1], qualitativeDiff := "refined" }

/-- Fixture database: flow0 with its first step completed and analysed. -/
def dbNextIter : DB :=
  { specs := [spec0], campaigns := [camp0], flows := [flow0]
    steps := [stepCompleted], analyses := [anaRefined], targetGroups := [tg0] }

/-- Fixture: the CREATE_NEXT_ITERATION job for stepCompleted. -/
def jobNextIter : Job :=
  { jobType := .createNextIteration, flowId := 4, stepId := some 10, priority := 0 }

/-- Fixture: the FlowStepCreate payload CREATE_NEXT_ITERATION builds
from anaRefined. -/
def nextStepCreate : FlowStepCreate :=
  { flowId := 4, inputEmbedding := some anaRefined.outputEmbedding
    inputInsights := some anaRefined.qualitativeDiff }

/-- The concrete result pair of the C6 witness run (executeGenerating on
dbGen with the always-failing generator). -/
def c6RunPair : DB × JobResult :=
  match executeGenerating envFail cfg0 dbGen jobGen [assetP] with
  | .ok p => p
  | .error p => (p.1, { job := jobGen, success := false })

/-- The concrete scheduler tick of the C5 counterexample: run_once with
the default max_jobs_per_run of 10 (fuel 11 covers the final loop-guard
check) on dbGen with the always-failing generator. -/
def c5Run : DB × List JobResult := runOnce envFail cfg0 {} 11 dbGen

/-- The single job execution inside that tick (used to instantiate the
amended loop-step equation). -/
def c5ExecPair : DB × JobResult :=
  executeJob envFail cfg0 dbGen jobGen spec0.baseAssets spec0

-- ---------------------------------------------------------------
-- Helper lemmas: stable sorting
-- ---------------------------------------------------------------

instance : IsTotal Job jobPriorityLE :=
  ⟨fun a b => Nat.le_total a.priority b.priority⟩

instance : IsTrans Job jobPriorityLE :=
  ⟨fun _ _ _ h h' => Nat.le_trans h h'⟩

instance : IsTotal (ℚ × PyUUID) scoredGE :=
  ⟨fun a b => le_total b.1 a.1⟩

instance : IsTrans (ℚ × PyUUID) scoredGE :=
  ⟨fun _ _ _ h h' => le_trans h' h⟩

theorem head_insertionSort_firstMinJob (l : List Job) :
    (List.insertionSort jobPriorityLE l).head? = firstMinJob l := by
  induction l with
  | nil => rfl
  | cons j l ih =>
    show (List.orderedInsert jobPriorityLE j (List.insertionSort jobPriorityLE l)).head?
      = firstMinJob (j :: l)
    rcases h : List.insertionSort jobPriorityLE l with _ | ⟨b, t⟩
    · rw [h] at ih
      have hnone : firstMinJob l = none := ih.symm
      simp [List.orderedInsert, firstMinJob, hnone]
    · rw [h] at ih
      have hb : firstMinJob l = some b := ih.symm
      rw [show List.orderedInsert jobPriorityLE j (b :: t)
          = if jobPriorityLE j b then j :: b :: t else b :: List.orderedInsert jobPriorityLE j t
        from rfl]
      simp only [firstMinJob, hb]
      by_cases hle : jobPriorityLE j b
      · rw [if_pos hle, if_pos (show j.priority ≤ b.priority from hle)]
        rfl
      · rw [if_neg hle, if_neg (show ¬ j.priority ≤ b.priority from hle)]
        rfl

theorem filter_orderedInsert_scored (x : ℚ × PyUUID) (s : List (ℚ × PyUUID)) (q : ℚ) :
    (List.orderedInsert scoredGE x s).filter (fun p => p.1 = q) =
      if x.1 = q then x :: s.filter (fun p => p.1 = q)
      else s.filter (fun p => p.1 = q) := by
  induction s with
  | nil =>
    by_cases hx : x.1 = q
    · simp [List.orderedInsert, hx]
    · simp [List.orderedInsert, hx]
  | cons y ys ih =>
    rw [List.orderedInsert]
    by_cases h : scoredGE x y
    · rw [if_pos h]
      by_cases hx : x.1 = q
      · simp [List.filter_cons, hx]
      · simp [List.filter_cons, hx]
    · rw [if_neg h]
      have hlt : x.1 < y.1 := lt_of_not_le h
      by_cases hy : y.1 = q
      · have hx : x.1 ≠ q := fun hxq => absurd (hxq.trans hy.symm) (ne_of_lt hlt)
        rw [if_neg hx]
        simp [List.filter_cons, hy, ih, if_neg hx]
      · by_cases hx : x.1 = q
        · rw [if_pos hx]
          simp [List.filter_cons, hy, ih, if_pos hx]
        · rw [if_neg hx]
          simp [List.filter_cons, hy, ih, if_neg hx]

theorem filter_insertionSort_scored (l : List (ℚ × PyUUID)) (q : ℚ) :
    (List.insertionSort scoredGE l).filter (fun p => p.1 = q) =
      l.filter (fun p => p.1 = q) := by
  induction l with
  | nil => rfl
  | cons x l ih =>
    show (List.orderedInsert scoredGE x (List.insertionSort scoredGE l)).filter _ = _
    rw [filter_orderedInsert_scored]
    by_cases hx : x.1 = q
    · rw [if_pos hx, ih]
      simp [List.filter_cons, hx]
    · rw [if_neg hx, ih]
      simp [List.filter_cons, hx]

-- ---------------------------------------------------------------
-- Claim C10: derived metrics
-- ---------------------------------------------------------------

/-- C10 counterexample: the claim computes ctr as clicks/impressions
whenever the denominator is nonzero, but the code zeroes every ratio
whose denominator is not positive: at impressions = -1, clicks = 1 the
claimed value is -1 while the code stores 0.0. -/
theorem c10_negative_denominator_counterexample :
    ({ imageId := 1, impressions := -1, clicks := 1, conversions := 1,
       cost := 1 : ImageMetrics }).computeDerivedMetrics.ctr = 0 ∧
    ((1 : ℚ) / (((-1 : ℤ) : ℚ)) = -1) ∧ ((-1 : ℤ) ≠ 0) ∧ ((0 : ℚ) ≠ -1) := by
  refine ⟨rfl, by norm_num, by decide, by norm_num⟩

/-- C10 (amended): every write of ImageMetrics (create_image_metrics and
update_image_metrics) recomputes the four ratios from the raw counts,
as the quotient when the denominator is positive and 0.0 when the
denominator is not positive (in particular when it is zero); the
computation is total, so no write can raise a division-by-zero error. -/
theorem c10_derived_metrics_amended :
    ∀ (db : DB) (m : ImageMetrics),
      (m.computeDerivedMetrics.ctr
        = if m.impressions > 0 then (m.clicks : ℚ) / (m.impressions : ℚ) else 0) ∧
      (m.computeDerivedMetrics.conversionRate
        = if m.clicks > 0 then (m.conversions : ℚ) / (m.clicks : ℚ) else 0) ∧
      (m.computeDerivedMetrics.cpc
        = if m.clicks > 0 then m.cost / (m.clicks : ℚ) else 0) ∧
      (m.computeDerivedMetrics.cpa
        = if m.conversions > 0 then m.cost / (m.conversions : ℚ) else 0) ∧
      (m.impressions = 0 → m.computeDerivedMetrics.ctr = 0) ∧
      (m.clicks = 0 → m.computeDerivedMetrics.conversionRate = 0
        ∧ m.computeDerivedMetrics.cpc = 0) ∧
      (m.conversions = 0 → m.computeDerivedMetrics.cpa = 0) ∧
      (repoCreateImageMetrics db m
        = ({ db with metrics := db.metrics ++ [m.computeDerivedMetrics] },
           m.computeDerivedMetrics)) ∧
      ((repoUpdateImageMetrics db m).2 = m.computeDerivedMetrics) ∧
      ((repoUpdateImageMetrics db m).1.metrics
        = db.metrics.map
            (fun x => if x.imageId = m.imageId then m.computeDerivedMetrics else x)) ∧
      ((serviceCreateImageMetrics db m.imageId m.impressions m.clicks m.conversions
          m.cost).1.ctr
        = if m.impressions > 0 then (m.clicks : ℚ) / (m.impressions : ℚ) else 0) := by
  intro db m
  refine ⟨rfl, rfl, rfl, rfl, ?_, ?_, ?_, rfl, rfl, rfl, rfl⟩
  · intro h
    simp [ImageMetrics.computeDerivedMetrics, h]
  · intro h
    constructor <;> simp [ImageMetrics.computeDerivedMetrics, h]
  · intro h
    simp [ImageMetrics.computeDerivedMetrics, h]

/-- C10 witness: the amended theorem applied at a concrete row with
zero denominators. -/
theorem c10_derived_metrics_amended_witness :
    ({ imageId := 9, impressions := 0, clicks := 0, conversions := 0,
       cost := 5 : ImageMetrics }).computeDerivedMetrics.ctr = 0 ∧
    ({ imageId := 9, impressions := 0, clicks := 0, conversions := 0,
       cost := 5 : ImageMetrics }).computeDerivedMetrics.cpa = 0 := by
  have h := c10_derived_metrics_amended {}
    { imageId := 9, impressions := 0, clicks := 0, conversions := 0, cost := 5 }
  exact ⟨h.2.2.2.2.1 rfl, h.2.2.2.2.2.2.1 rfl⟩

-- ---------------------------------------------------------------
-- Claim C3: select_top_images_by_score
-- ---------------------------------------------------------------

/-- C3: select_top_images_by_score computes the claimed composite for
each image (missing keys read as 0), stable-sorts descending by
composite (ties keep input order), and splits into the first top_n ids
(winners) and the rest (losers); winners and losers together are a
permutation of the input ids, the winner count is min(top_n, n), for
duplicate-free input ids the two lists are disjoint, and every loser's
composite is at most every winner's composite. -/
theorem c3_select_top_images :
    ∀ (l : List (PyUUID × ImageAnalyticsDict)) (topN : Nat)
      (scored sorted : List (ℚ × PyUUID)),
      scored = l.map (fun p => (compositeScore p.2, p.1)) →
      sorted = List.insertionSort scoredGE scored →
      (∀ a : ImageAnalyticsDict,
        compositeScore a =
          ((a.interactionRate.getD 0) * (6/10)
              + ((a.interactions.getD 0) / 1000) * (4/10)) * (4/10)
            + (min ((a.conversionValue.getD 0) / 1000) 1) * (3/10)
            + (a.conversionRate.getD 0) * (2/10)
            + (min ((a.ctr.getD 0) * 10) 1) * (1/10)) ∧
      (selectTopImagesByScore l topN
        = ((sorted.take topN).map (·.2), (sorted.drop topN).map (·.2))) ∧
      ((sorted.take topN).map (·.2) ++ (sorted.drop topN).map (·.2)).Perm
        (l.map (·.1)) ∧
      ((sorted.take topN).map (·.2)).length = min topN l.length ∧
      ((l.map (·.1)).Nodup →
        ((sorted.take topN).map (·.2)).Disjoint ((sorted.drop topN).map (·.2))) ∧
      (∀ p ∈ sorted.take topN, ∀ r ∈ sorted.drop topN, r.1 ≤ p.1) ∧
      (∀ q : ℚ, sorted.filter (fun p => p.1 = q) = scored.filter (fun p => p.1 = q)) := by
  intro l topN scored sorted hscored hsorted
  have hmapids : sorted.map (·.2) ++ [] = sorted.map (·.2) := by simp
  have hperm : ((sorted.take topN).map (·.2) ++ (sorted.drop topN).map (·.2)).Perm
      (l.map (·.1)) := by
    rw [← List.map_append, List.take_append_drop]
    have h1 : sorted.Perm scored := by
      rw [hsorted]; exact List.perm_insertionSort scoredGE scored
    have h2 : (sorted.map (·.2)).Perm (scored.map (·.2)) := h1.map _
    have h3 : scored.map (·.2) = l.map (·.1) := by
      rw [hscored, List.map_map]; rfl
    rw [h3] at h2
    exact h2
  refine ⟨fun a => rfl, ?_, hperm, ?_, ?_, ?_, ?_⟩
  · rw [selectTopImagesByScore, ← hscored, ← hsorted]
  · rw [List.length_map, List.length_take, hsorted, List.length_insertionSort,
      hscored, List.length_map]
  · intro hnodup
    have hnd : (((sorted.take topN).map (·.2)) ++ ((sorted.drop topN).map (·.2))).Nodup :=
      (hperm.symm).nodup hnodup
    exact (List.nodup_append.mp hnd).2.2
  · intro p hp r hr
    have hs : sorted.Sorted scoredGE := by
      rw [hsorted]; exact List.sorted_insertionSort scoredGE scored
    have hpw : List.Pairwise scoredGE (sorted.take topN ++ sorted.drop topN) := by
      rw [List.take_append_drop]; exact hs
    exact (List.pairwise_append.mp hpw).2.2 p hp r hr
  · intro q
    rw [hsorted]
    exact filter_insertionSort_scored scored q

/-- C3 witness: the spec's example shape, five scored images with
top_n = 2; exactly the two highest-scoring ids come first and the
remaining three are losers, with no overlap. -/
theorem c3_select_top_images_witness :
    selectTopImagesByScore analyticsExample 2 = ([5, 4], [3, 2, 1]) ∧
    (analyticsExample.map (·.1)).Nodup ∧
    (((List.insertionSort scoredGE
        (analyticsExample.map (fun p => (compositeScore p.2, p.1)))).take 2).map
          (·.2)).Disjoint
      (((List.insertionSort scoredGE
        (analyticsExample.map (fun p => (compositeScore p.2, p.1)))).drop 2).map
          (·.2)) := by
  have h := c3_select_top_images analyticsExample 2
    (analyticsExample.map (fun p => (compositeScore p.2, p.1)))
    (List.insertionSort scoredGE
      (analyticsExample.map (fun p => (compositeScore p.2, p.1)))) rfl rfl
  refine ⟨?_, by decide, h.2.2.2.2.1 (by decide)⟩
  norm_num [selectTopImagesByScore, analyticsExample, compositeScore,
    List.insertionSort, List.orderedInsert, scoredGE, min_def]

-- ---------------------------------------------------------------
-- Claim C2: state transitions
-- ---------------------------------------------------------------

/-- C2: each transition refuses any current state other than its single
allowed source state by raising InvalidStateTransitionError carrying
both the current and the target state (and writing nothing - an error
result carries no updated store); a successful transition advances the
state exactly one position forward along
GENERATING, COLLECTING_DATA, ANALYZING, COMPLETED, changing nothing but
the state field; newly created steps always start in GENERATING. -/
theorem c2_state_transitions :
    ∀ (db : DB) (stepId : PyUUID) (step : FlowStep),
      getStep db stepId = some step →
      (step.state ≠ .generating →
        transitionToCollecting db stepId
          = .error (.invalidStateTransition step.state .collectingData)) ∧
      (step.state ≠ .collectingData →
        transitionToAnalyzing db stepId
          = .error (.invalidStateTransition step.state .analyzing)) ∧
      (step.state ≠ .analyzing →
        transitionToCompleted db stepId
          = .error (.invalidStateTransition step.state .completed)) ∧
      (∀ c t : FlowStepState, (PyError.invalidStateTransition c t).message
        = "Cannot transition from " ++ c.value ++ " to " ++ t.value) ∧
      (∀ s' db', transitionToCollecting db stepId = .ok (s', db') →
        step.state = .generating ∧ s' = { step with state := .collectingData }
          ∧ s'.state.idx = step.state.idx + 1 ∧ db' = repoUpdateStep db s') ∧
      (∀ s' db', transitionToAnalyzing db stepId = .ok (s', db') →
        step.state = .collectingData ∧ s' = { step with state := .analyzing }
          ∧ s'.state.idx = step.state.idx + 1 ∧ db' = repoUpdateStep db s') ∧
      (∀ s' db', transitionToCompleted db stepId = .ok (s', db') →
        step.state = .analyzing ∧ s' = { step with state := .completed }
          ∧ s'.state.idx = step.state.idx + 1 ∧ db' = repoUpdateStep db s') ∧
      (∀ d : FlowStepCreate, (serviceCreateStep db d).1.state = .generating) := by
  intro db stepId step hstep
  have hget : serviceGetStep db stepId = .ok step := by
    rw [serviceGetStep, hstep]
  refine ⟨?_, ?_, ?_, fun c t => rfl, ?_, ?_, ?_, fun d => rfl⟩
  · intro hne
    rw [transitionToCollecting, hget]
    dsimp only
    rw [if_pos hne]
  · intro hne
    rw [transitionToAnalyzing, hget]
    dsimp only
    rw [if_pos hne]
  · intro hne
    rw [transitionToCompleted, hget]
    dsimp only
    rw [if_pos hne]
  · intro s' db' h
    rw [transitionToCollecting, hget] at h
    dsimp only at h
    by_cases hg : step.state = FlowStepState.generating
    · rw [if_neg (by simp [hg])] at h
      cases hgr : getGenerationResultByStep db stepId with
      | none => rw [hgr] at h; cases h
      | some r =>
        rw [hgr] at h
        injection h with h
        injection h with h1 h2
        refine ⟨hg, h1.symm, ?_, ?_⟩
        · rw [← h1, hg]
          rfl
        · rw [← h2, h1]
    · rw [if_pos hg] at h
      cases h
  · intro s' db' h
    rw [transitionToAnalyzing, hget] at h
    dsimp only at h
    by_cases hg : step.state = FlowStepState.collectingData
    · rw [if_neg (by simp [hg])] at h
      injection h with h
      injection h with h1 h2
      refine ⟨hg, h1.symm, ?_, ?_⟩
      · rw [← h1, hg]
        rfl
      · rw [← h2, h1]
    · rw [if_pos hg] at h
      cases h
  · intro s' db' h
    rw [transitionToCompleted, hget] at h
    dsimp only at h
    by_cases hg : step.state = FlowStepState.analyzing
    · rw [if_neg (by simp [hg])] at h
      cases har : getAnalysisResultByStep db stepId with
      | none => rw [har] at h; cases h
      | some r =>
        rw [har] at h
        injection h with h
        injection h with h1 h2
        refine ⟨hg, h1.symm, ?_, ?_⟩
        · rw [← h1, hg]
          rfl
        · rw [← h2, h1]
    · rw [if_pos hg] at h
      cases h

/-- C2 witness: on the fixture database, attempting to move the
GENERATING step straight to ANALYZING or COMPLETED raises the error
carrying both states, while the allowed transition to COLLECTING_DATA
succeeds and advances one position. -/
theorem c2_state_transitions_witness :
    getStep dbC4 10 = some stepGen ∧
    transitionToAnalyzing dbC4 10
      = .error (.invalidStateTransition .generating .analyzing) ∧
    transitionToCompleted dbC4 10
      = .error (.invalidStateTransition .generating .completed) ∧
    (∀ s' db', transitionToCollecting dbC4 10 = .ok (s', db') →
      stepGen.state = .generating ∧ s' = { stepGen with state := .collectingData }
        ∧ s'.state.idx = stepGen.state.idx + 1 ∧ db' = repoUpdateStep dbC4 s') := by
  have h := c2_state_transitions dbC4 10 stepGen rfl
  exact ⟨rfl, h.2.1 (by decide), h.2.2.1 (by decide), h.2.2.2.2.1⟩

-- ---------------------------------------------------------------
-- Helper lemmas: get_latest_step picks the maximal iteration
-- ---------------------------------------------------------------

theorem latestPick_some (acc : Option FlowStep) (s : FlowStep) :
    ∃ c, latestPick acc s = some c
      ∧ (∀ a, acc = some a → a.iteration ≤ c.iteration)
      ∧ s.iteration ≤ c.iteration
      ∧ (acc = some c ∨ c = s) := by
  cases acc with
  | none => exact ⟨s, rfl, (by intro a h; cases h), le_refl _, Or.inr rfl⟩
  | some b =>
    by_cases h : s.iteration > b.iteration
    · refine ⟨s, ?_, ?_, le_refl _, Or.inr rfl⟩
      · simp [latestPick, h]
      · intro a ha
        injection ha with ha
        subst ha
        exact le_of_lt h
    · refine ⟨b, ?_, ?_, le_of_not_lt h, Or.inl rfl⟩
      · simp [latestPick, h]
      · intro a ha
        injection ha with ha
        subst ha
        exact le_refl _

theorem foldl_latestPick_spec (l : List FlowStep) :
    ∀ acc : Option FlowStep,
      (l.foldl latestPick acc = none ↔ (l = [] ∧ acc = none)) ∧
      (∀ b, l.foldl latestPick acc = some b →
        (acc = some b ∨ b ∈ l)
        ∧ (∀ a, acc = some a → a.iteration ≤ b.iteration)
        ∧ (∀ s ∈ l, s.iteration ≤ b.iteration)) := by
  induction l with
  | nil =>
    intro acc
    refine ⟨by simp, ?_⟩
    intro b hb
    simp at hb
    subst hb
    exact ⟨Or.inl rfl, (fun a ha => by injection ha with ha; subst ha; exact le_refl _),
      fun s hs => absurd hs (List.not_mem_nil s)⟩
  | cons s l ih =>
    intro acc
    obtain ⟨c, hc, hmono, hsle, hco⟩ := latestPick_some acc s
    obtain ⟨ih1, ih2⟩ := ih (latestPick acc s)
    constructor
    · rw [List.foldl_cons, ih1]
      simp [hc]
    · intro b hb
      rw [List.foldl_cons] at hb
      obtain ⟨hmem, hacc, hall⟩ := ih2 b hb
      have hcb : c.iteration ≤ b.iteration := hacc c hc
      refine ⟨?_, ?_, ?_⟩
      · rcases hmem with hm | hm
        · rw [hc] at hm
          injection hm with hm
          subst hm
          rcases hco with h | h
          · exact Or.inl h
          · exact Or.inr (by rw [h]; exact List.mem_cons_self s l)
        · exact Or.inr (List.mem_cons_of_mem s hm)
      · intro a ha
        exact le_trans (hmono a ha) hcb
      · intro x hx
        rcases List.mem_cons.mp hx with hx | hx
        · subst hx
          exact le_trans hsle hcb
        · exact hall x hx

theorem getLatestStep_none_iff (db : DB) (flowId : PyUUID) :
    getLatestStep db flowId = none
      ↔ db.steps.filter (fun s => s.flowId = flowId) = [] := by
  rw [getLatestStep]
  rw [(foldl_latestPick_spec _ none).1]
  simp

theorem getLatestStep_some_spec (db : DB) (flowId : PyUUID) (b : FlowStep)
    (h : getLatestStep db flowId = some b) :
    b ∈ db.steps.filter (fun s => s.flowId = flowId)
      ∧ ∀ s ∈ db.steps.filter (fun s => s.flowId = flowId),
          s.iteration ≤ b.iteration := by
  rw [getLatestStep] at h
  obtain ⟨hmem, _, hall⟩ := (foldl_latestPick_spec _ none).2 b h
  rcases hmem with hm | hm
  · cases hm
  · exact ⟨hm, hall⟩

-- ---------------------------------------------------------------
-- Claim C9: contiguous iterations
-- ---------------------------------------------------------------

theorem createStep_preserves_contiguous (db : DB) (d : FlowStepCreate)
    (hinv : stepsContiguous db) : stepsContiguous (serviceCreateStep db d).2 := by
  intro g
  have hsteps : (serviceCreateStep db d).2.steps
      = db.steps ++ [(serviceCreateStep db d).1] := rfl
  have hflow : (serviceCreateStep db d).1.flowId = d.flowId := rfl
  have hits := hinv g
  unfold contiguousFrom0 flowIterations at hits ⊢
  rw [hsteps, List.filter_append, List.map_append]
  by_cases hg : d.flowId = g
  · have hkeep : List.filter (fun s => decide (s.flowId = g))
        [(serviceCreateStep db d).1] = [(serviceCreateStep db d).1] := by
      simp [List.filter, hflow, hg]
    rw [hkeep]
    set l := db.steps.filter (fun s => s.flowId = g) with hldef
    rw [List.length_map] at hits
    have hiter : (serviceCreateStep db d).1.iteration = l.length := by
      show (match getLatestStep db d.flowId with
        | some s => s.iteration + 1
        | none => 0) = _
      cases hl : getLatestStep db d.flowId with
      | none =>
        rw [getLatestStep_none_iff, hg] at hl
        dsimp only
        rw [hldef, hl]
        rfl
      | some b =>
        obtain ⟨hmem, hmax⟩ := getLatestStep_some_spec db d.flowId b hl
        rw [hg] at hmem hmax
        dsimp only
        have hbmem : b.iteration ∈ l.map (fun s => s.iteration) :=
          List.mem_map_of_mem _ hmem
        have hblt : b.iteration < l.length :=
          List.mem_range.mp (hits.mem_iff.mp hbmem)
        have hlast : l.length - 1 ∈ l.map (fun s => s.iteration) :=
          hits.mem_iff.mpr (List.mem_range.mpr (by omega))
        obtain ⟨s, hsmem, hsval⟩ := List.mem_map.mp hlast
        have hle : l.length - 1 ≤ b.iteration := hsval ▸ hmax s hsmem
        have hgoal : b.iteration + 1 = l.length := by omega
        exact hgoal
    have hmapone : List.map (fun s => s.iteration) [(serviceCreateStep db d).1]
        = [l.length] := by
      simp [hiter]
    rw [hmapone]
    have hlen : (List.map (fun s => s.iteration) l ++ [l.length]).length
        = l.length + 1 := by
      simp
    rw [hlen, List.range_succ]
    exact hits.append_right [l.length]
  · have hdrop : List.filter (fun s => decide (s.flowId = g))
        [(serviceCreateStep db d).1] = [] := by
      simp [List.filter, hflow, hg]
    rw [hdrop]
    simpa using hits

/-- C9: create_step (the only step-creation path) assigns iteration
latest+1, or 0 for a flow with no steps; starting from the empty store,
any sequence of step creations keeps every flow's iteration multiset
equal to 0, 1, ..., n-1. -/
theorem c9_iterations_contiguous :
    ∀ (db : DB) (d : FlowStepCreate) (ops : List FlowStepCreate),
      stepsContiguous ({} : DB) ∧
      (getLatestStep db d.flowId = none → (serviceCreateStep db d).1.iteration = 0) ∧
      (∀ latest, getLatestStep db d.flowId = some latest →
        (serviceCreateStep db d).1.iteration = latest.iteration + 1) ∧
      (stepsContiguous db → stepsContiguous (serviceCreateStep db d).2) ∧
      (stepsContiguous db →
        stepsContiguous (ops.foldl (fun acc op => (serviceCreateStep acc op).2) db)) := by
  intro db d ops
  refine ⟨?_, ?_, ?_, createStep_preserves_contiguous db d, ?_⟩
  · intro f
    simp [contiguousFrom0, flowIterations]
  · intro h
    simp [serviceCreateStep, h]
  · intro latest h
    simp [serviceCreateStep, h]
  · intro hinv
    induction ops generalizing db with
    | nil => exact hinv
    | cons op ops ih => exact ih _ (createStep_preserves_contiguous db op hinv)

/-- C9 witness: the invariant holds on the empty store and is kept by a
concrete creation (which gets iteration 0), and a second creation on the
same flow gets iteration 1. -/
theorem c9_iterations_contiguous_witness :
    stepsContiguous ({} : DB) ∧
    stepsContiguous (serviceCreateStep {} { flowId := 4 }).2 ∧
    (serviceCreateStep {} { flowId := 4 }).1.iteration = 0 ∧
    (serviceCreateStep (serviceCreateStep {} { flowId := 4 }).2
      { flowId := 4 }).1.iteration = 1 := by
  have h := c9_iterations_contiguous {} { flowId := 4 } []
  have h2 := c9_iterations_contiguous (serviceCreateStep {} { flowId := 4 }).2
    { flowId := 4 } []
  exact ⟨h.1, h.2.2.2.1 h.1, h.2.1 rfl, h2.2.2.1 (serviceCreateStep {} { flowId := 4 }).1 rfl⟩

-- ---------------------------------------------------------------
-- Claim C1: job discovery
-- ---------------------------------------------------------------

/-- C1: per flow, job discovery maps persisted state to the table's one
due job (no step: CREATE_FIRST_STEP prio 0; GENERATING: RUN_GENERATING
prio 1; COLLECTING_DATA: RUN_COLLECTING_DATA prio 2; ANALYZING:
RUN_ANALYZING prio 3; COMPLETED below the budget: CREATE_NEXT_ITERATION
prio 0; COMPLETED at the budget: none); across flows, get_next_job
returns a due job of minimal priority number, and deterministically the
first such job in flow scan order (the stable sort's head). -/
theorem c1_job_discovery :
    ∀ (db : DB) (flow : CampaignFlow),
      (getLatestStep db flow.id = none →
        getJobForFlow db flow = some ⟨.createFirstStep, flow.id, none, 0⟩) ∧
      (∀ latest, getLatestStep db flow.id = some latest →
        (latest.state = .generating →
          getJobForFlow db flow = some ⟨.runGenerating, flow.id, some latest.id, 1⟩) ∧
        (latest.state = .collectingData →
          getJobForFlow db flow = some ⟨.runCollectingData, flow.id, some latest.id, 2⟩) ∧
        (latest.state = .analyzing →
          getJobForFlow db flow = some ⟨.runAnalyzing, flow.id, some latest.id, 3⟩) ∧
        (∀ campaign spec,
          db.campaigns.find? (fun c => c.id = flow.campaignId) = some campaign →
          db.specs.find? (fun sp => sp.id = campaign.campaignSpecId) = some spec →
          latest.state = .completed →
          (((latest.iteration : ℤ) < spec.maxIterations - 1) →
            getJobForFlow db flow
              = some ⟨.createNextIteration, flow.id, some latest.id, 0⟩) ∧
          (((latest.iteration : ℤ) = spec.maxIterations - 1) →
            getJobForFlow db flow = none))) ∧
      (∀ campaignId j, getNextJob db campaignId = some j →
        j ∈ dueJobs db campaignId
          ∧ ∀ j' ∈ dueJobs db campaignId, j.priority ≤ j'.priority) ∧
      (∀ campaignId, getNextJob db campaignId = firstMinJob (dueJobs db campaignId)) := by
  intro db flow
  refine ⟨?_, ?_, ?_, fun campaignId => head_insertionSort_firstMinJob _⟩
  · intro hl
    rw [getJobForFlow, hl]
  · intro latest hl
    refine ⟨?_, ?_, ?_, ?_⟩
    · intro hs
      rw [getJobForFlow, hl]
      dsimp only
      rw [hs]
      cases hgr : getGenerationResultByStep db latest.id with
      | none => rfl
      | some r => rfl
    · intro hs
      rw [getJobForFlow, hl]
      dsimp only
      rw [hs]
    · intro hs
      rw [getJobForFlow, hl]
      dsimp only
      rw [hs]
    · intro campaign spec hc hsp hs
      constructor
      · intro hlt
        rw [getJobForFlow, hl]
        dsimp only
        rw [hs]
        dsimp only
        rw [hc]
        dsimp only
        rw [hsp]
        dsimp only
        rw [if_pos hlt]
      · intro heq
        rw [getJobForFlow, hl]
        dsimp only
        rw [hs]
        dsimp only
        rw [hc]
        dsimp only
        rw [hsp]
        dsimp only
        rw [if_neg (by omega)]
  · intro campaignId j hj
    have hperm : (List.insertionSort jobPriorityLE (dueJobs db campaignId)).Perm
        (dueJobs db campaignId) := List.perm_insertionSort _ _
    have hsorted : (List.insertionSort jobPriorityLE (dueJobs db campaignId)).Sorted
        jobPriorityLE := List.sorted_insertionSort _ _
    rw [getNextJob] at hj
    cases hs : List.insertionSort jobPriorityLE (dueJobs db campaignId) with
    | nil => rw [hs] at hj; cases hj
    | cons a t =>
      rw [hs] at hj hperm hsorted
      injection hj with hj
      subst hj
      refine ⟨hperm.subset (List.mem_cons_self a t), ?_⟩
      intro j' hj'
      rcases List.mem_cons.mp (hperm.mem_iff.mpr hj') with h | h
      · rw [h]
      · exact (List.pairwise_cons.mp hsorted).1 j' h

/-- C1 witness: on the fixture database the flow's latest step is in
GENERATING, so the due job is RUN_GENERATING with priority 1, and
get_next_job returns it, agreeing with the first-minimum description. -/
theorem c1_job_discovery_witness :
    getLatestStep dbC4 flow0.id = some stepGen ∧
    getJobForFlow dbC4 flow0 = some jobGen ∧
    getNextJob dbC4 none = firstMinJob (dueJobs dbC4 none) ∧
    (∀ j' ∈ dueJobs dbC4 none, jobGen.priority ≤ j'.priority) := by
  have h := c1_job_discovery dbC4 flow0
  refine ⟨rfl, ?_, h.2.2.2 none, ?_⟩
  · exact (h.2.1 stepGen rfl).1 rfl
  · exact (h.2.2.1 none jobGen rfl).2

-- ---------------------------------------------------------------
-- Claim C8: iteration hand-over
-- ---------------------------------------------------------------

/-- C8 counterexample: the step's input_insights is present (the empty
string), yet RUN_GENERATING uses the flow's initial prompt: Python
truthiness treats the empty string like None, so "present" is not
sufficient for the insights to take precedence. -/
theorem c8_empty_insights_counterexample :
    stepEmptyIns.inputInsights = some "" ∧
    stepEmptyIns.inputInsights ≠ none ∧
    flow0.initialPrompt = "base" ∧
    (match executeGenerating envFail cfg0 dbC8 jobGen8 [] with
      | .ok (db', _) => db'.genResults.map (fun g => g.prompt)
      | .error _ => []) = ["base"] ∧
    ("base" : String) ≠ "" := by
  exact ⟨rfl, (by simp [stepEmptyIns]), rfl, rfl, (by simp)⟩

/-- C8 (amended): CREATE_NEXT_ITERATION copies output_embedding into the
new step's input_embedding and the refined-prompt field
(qualitative_diff) into input_insights, fails explicitly and creates no
step when the prior AnalysisResult is missing, and first steps carry
null input fields; in RUN_GENERATING the step's input_insights is used
as the prompt in preference to the flow's initial prompt when it is
present AND NON-EMPTY (a present empty string falls back to the initial
prompt). -/
theorem c8_next_iteration_amended :
    ∀ (db : DB) (job : Job) (sid : PyUUID) (prevStep : FlowStep),
      job.stepId = some sid →
      getStep db sid = some prevStep →
      (getAnalysisResultByStep db sid = none →
        executeCreateNextIteration db job
          = .ok (db, { job := job, success := false
                       error := some "No analysis result found" })) ∧
      (∀ analysis, getAnalysisResultByStep db sid = some analysis →
        ∀ newStep db',
          serviceCreateStep db
            { flowId := job.flowId
              inputEmbedding := some analysis.outputEmbedding
              inputInsights := some analysis.qualitativeDiff } = (newStep, db') →
          executeCreateNextIteration db job
            = .ok (db', { job := job, success := true
                          nextJob := some ⟨.runGenerating, job.flowId, some newStep.id, 1⟩
                          data := [("new_step_id", toString newStep.id),
                                   ("iteration", toString newStep.iteration)] })
          ∧ newStep.inputEmbedding = some analysis.outputEmbedding
          ∧ newStep.inputInsights = some analysis.qualitativeDiff) ∧
      (∀ f : PyUUID, (serviceCreateStep db { flowId := f }).1.inputEmbedding = none
        ∧ (serviceCreateStep db { flowId := f }).1.inputInsights = none) ∧
      (∀ step flow, step.inputInsights = none →
        choosePromptForStep step (some flow) = .ok flow.initialPrompt) ∧
      (∀ step flow s, step.inputInsights = some s → s ≠ "" →
        choosePromptForStep step (some flow) = .ok s) ∧
      (∀ step flow, step.inputInsights = some "" →
        choosePromptForStep step (some flow) = .ok flow.initialPrompt) := by
  intro db job sid prevStep hjob hstep
  have hget : serviceGetStep db sid = .ok prevStep := by
    rw [serviceGetStep, hstep]
  have hfind : db.steps.find? (fun s => decide (s.id = sid)) = some prevStep := hstep
  have hid : prevStep.id = sid := by
    have hp := List.find?_some hfind
    simpa using hp
  refine ⟨?_, ?_, fun f => ⟨rfl, rfl⟩, ?_, ?_, ?_⟩
  · intro hnone
    rw [executeCreateNextIteration, hjob]
    dsimp only
    rw [hget]
    dsimp only
    rw [hid, hnone]
  · intro analysis hana newStep db' hcreate
    refine ⟨?_, ?_, ?_⟩
    · rw [executeCreateNextIteration, hjob]
      dsimp only
      rw [hget]
      dsimp only
      rw [hid, hana]
      dsimp only
      rw [hcreate]
    · have : newStep = (serviceCreateStep db
          { flowId := job.flowId
            inputEmbedding := some analysis.outputEmbedding
            inputInsights := some analysis.qualitativeDiff }).1 := by
        rw [hcreate]
      rw [this]
      rfl
    · have : newStep = (serviceCreateStep db
          { flowId := job.flowId
            inputEmbedding := some analysis.outputEmbedding
            inputInsights := some analysis.qualitativeDiff }).1 := by
        rw [hcreate]
      rw [this]
      rfl
  · intro step flow h
    rw [choosePromptForStep, h]
    rfl
  · intro step flow s h hs
    rw [choosePromptForStep, h]
    simp [pyTruthyStr, hs]
  · intro step flow h
    rw [choosePromptForStep, h]
    rfl

/-- C8 witness: the amended theorem applied on a concrete store holding
a completed, analysed step: the created step copies the analysis
output_embedding and qualitative_diff, and removing the analysis row
makes the job fail without creating anything. -/
theorem c8_next_iteration_amended_witness :
    (serviceCreateStep dbNextIter nextStepCreate).1.inputEmbedding = some [1] ∧
    (serviceCreateStep dbNextIter nextStepCreate).1.inputInsights = some "refined" ∧
    executeCreateNextIteration { dbNextIter with analyses := [] } jobNextIter
      = .ok ({ dbNextIter with analyses := [] },
             { job := jobNextIter, success := false
               error := some "No analysis result found" }) := by
  have h := c8_next_iteration_amended dbNextIter jobNextIter 10 stepCompleted rfl rfl
  have h2 := c8_next_iteration_amended { dbNextIter with analyses := [] }
    jobNextIter 10 stepCompleted rfl rfl
  obtain ⟨_, hemb, hins⟩ := h.2.1 anaRefined rfl
    (serviceCreateStep dbNextIter nextStepCreate).1
    (serviceCreateStep dbNextIter nextStepCreate).2 rfl
  exact ⟨hemb, hins, h2.1 rfl⟩

-- ---------------------------------------------------------------
-- Claim C4: retry on an existing GenerationResult
-- ---------------------------------------------------------------

/-- C4 (code bug): on a RUN_GENERATING retry where the step already has
a GenerationResult, the orchestrator calls
repository.delete_generation_result, but CampaignRepository defines no
such method, so the call raises AttributeError before anything is
deleted; execute_job catches it and reports a failed JobResult, and the
stale GenerationResult is still present afterwards: the claimed
delete-then-recreate behaviour never happens, and the step can never be
retried successfully. -/
theorem c4_retry_delete_attribute_error :
    getGenerationResultByStep dbC4 10 = some genResult0 ∧
    stepGen.state = FlowStepState.generating ∧
    executeGenerating envFail cfg0 dbC4 jobGen [assetP]
      = .error (dbC4, .attributeError "CampaignRepository" "delete_generation_result") ∧
    (executeJob envFail cfg0 dbC4 jobGen [assetP] spec0).2.success = false ∧
    (executeJob envFail cfg0 dbC4 jobGen [assetP] spec0).2.error
      = some "'CampaignRepository' object has no attribute 'delete_generation_result'" ∧
    (executeJob envFail cfg0 dbC4 jobGen [assetP] spec0).1.genResults = [genResult0] ∧
    (executeJob envFail cfg0 dbC4 jobGen [assetP] spec0).1 = dbC4 :=
  ⟨rfl, rfl, rfl, rfl, rfl, rfl, rfl⟩

-- ---------------------------------------------------------------
-- Helper lemmas: Python dict grouping
-- ---------------------------------------------------------------

theorem dictLookup_cons {κ β : Type} [DecidableEq κ] (p : κ × β) (l : List (κ × β))
    (k : κ) : dictLookup (p :: l) k = if p.1 = k then some p.2 else dictLookup l k := by
  by_cases h : p.1 = k
  · simp [dictLookup, List.find?_cons_of_pos, h]
  · simp [dictLookup, List.find?_cons_of_neg, h]

theorem dictLookup_map_append {κ α : Type} [DecidableEq κ]
    (l : List (κ × List α)) (c : κ) (a : α) (k : κ) :
    dictLookup (l.map (fun g => if g.1 = c then (g.1, g.2 ++ [a]) else g)) k
      = if k = c then (dictLookup l k).map (fun g => g ++ [a])
        else dictLookup l k := by
  induction l with
  | nil => by_cases h : k = c <;> simp [dictLookup, h]
  | cons p l ih =>
    rw [List.map_cons]
    by_cases hp : p.1 = c
    · rw [if_pos hp, dictLookup_cons, dictLookup_cons]
      by_cases hk : k = c
      · have hpk : p.1 = k := hp.trans hk.symm
        rw [if_pos hpk, if_pos hpk, if_pos hk]
        rfl
      · have hpk : p.1 ≠ k := fun h => hk (h.symm.trans hp)
        rw [if_neg hpk, if_neg hpk, if_neg hk, ih, if_neg hk]
    · rw [if_neg hp, dictLookup_cons, dictLookup_cons]
      by_cases hpk : p.1 = k
      · have hk : k ≠ c := fun h => hp (hpk.trans h)
        rw [if_pos hpk, if_pos hpk, if_neg hk]
      · rw [if_neg hpk, if_neg hpk, ih]

theorem dictLookup_append_single {κ β : Type} [DecidableEq κ]
    (l : List (κ × β)) (c : κ) (v : β) (k : κ) :
    dictLookup (l ++ [(c, v)]) k
      = match dictLookup l k with
        | some g => some g
        | none => if c = k then some v else none := by
  induction l with
  | nil =>
    rw [List.nil_append, dictLookup_cons]
    rfl
  | cons p l ih =>
    rw [List.cons_append, dictLookup_cons, dictLookup_cons]
    by_cases h : p.1 = k
    · rw [if_pos h, if_pos h]
    · rw [if_neg h, if_neg h, ih]

theorem dictLookup_isSome_iff_any {κ β : Type} [DecidableEq κ]
    (l : List (κ × β)) (c : κ) :
    (dictLookup l c).isSome = l.any (fun g => g.1 = c) := by
  induction l with
  | nil => rfl
  | cons p l ih =>
    rw [dictLookup_cons, List.any_cons]
    by_cases h : p.1 = c
    · simp [h]
    · simp [h, ih]

theorem dictLookup_pyGroupByStep {α κ : Type} [DecidableEq κ] (key : α → κ)
    (groups : List (κ × List α)) (a : α) (k : κ) :
    dictLookup (pyGroupByStep key groups a) k
      = if key a = k
        then some (((dictLookup groups k).getD []) ++ [a])
        else dictLookup groups k := by
  rw [pyGroupByStep]
  by_cases hany : groups.any (fun g => g.1 = key a)
  · rw [if_pos hany, dictLookup_map_append]
    by_cases hk : key a = k
    · have hsome : (dictLookup groups (key a)).isSome = true := by
        rw [dictLookup_isSome_iff_any]
        exact hany
      rw [hk] at hsome
      obtain ⟨g, hg⟩ := Option.isSome_iff_exists.mp hsome
      rw [if_pos (id hk.symm : k = key a), if_pos hk, hg]
      rfl
    · rw [if_neg (fun h => hk (id h.symm)), if_neg hk]
  · rw [if_neg hany, dictLookup_append_single]
    by_cases hk : key a = k
    · have hnotsome : (dictLookup groups (key a)).isSome = false := by
        rw [dictLookup_isSome_iff_any]
        exact eq_false_of_ne_true hany
      rw [hk] at hnotsome
      have hnone : dictLookup groups k = none :=
        Option.not_isSome_iff_eq_none.mp (by simp [hnotsome])
      rw [hnone]
      simp [hk]
    · cases ho : dictLookup groups k with
      | none => simp [ho, hk]
      | some g => simp [ho, hk]

theorem dictLookup_pyGroupBy_go {α κ : Type} [DecidableEq κ] (key : α → κ)
    (xs : List α) :
    ∀ (acc : List (κ × List α)) (k : κ),
      dictLookup (xs.foldl (pyGroupByStep key) acc) k
        = match dictLookup acc k with
          | some g => some (g ++ xs.filter (fun a => key a = k))
          | none =>
            if (xs.filter (fun a => key a = k)).isEmpty then none
            else some (xs.filter (fun a => key a = k)) := by
  induction xs with
  | nil =>
    intro acc k
    cases ho : dictLookup acc k <;> simp [ho]
  | cons x xs ih =>
    intro acc k
    rw [List.foldl_cons, ih, dictLookup_pyGroupByStep]
    by_cases hx : key x = k
    · rw [if_pos hx]
      cases ho : dictLookup acc k with
      | none => simp [ho, List.filter_cons, hx]
      | some g => simp [ho, List.filter_cons, hx]
    · rw [if_neg hx]
      cases ho : dictLookup acc k with
      | none => simp [ho, List.filter_cons, hx]
      | some g => simp [ho, List.filter_cons, hx]

theorem dictLookup_pyGroupBy {α κ : Type} [DecidableEq κ] (key : α → κ)
    (xs : List α) (k : κ) :
    dictLookup (pyGroupBy key xs) k
      = if (xs.filter (fun a => key a = k)).isEmpty then none
        else some (xs.filter (fun a => key a = k)) := by
  rw [pyGroupBy, dictLookup_pyGroupBy_go]
  rfl

theorem keys_pyGroupByStep {α κ : Type} [DecidableEq κ] (key : α → κ)
    (groups : List (κ × List α)) (a : α) :
    (pyGroupByStep key groups a).map (·.1)
      = if groups.any (fun g => g.1 = key a) then groups.map (·.1)
        else groups.map (·.1) ++ [key a] := by
  rw [pyGroupByStep]
  by_cases hany : groups.any (fun g => g.1 = key a)
  · rw [if_pos hany, if_pos hany, List.map_map]
    apply List.map_congr_left
    intro g _
    by_cases h : g.1 = key a <;> simp [h]
  · rw [if_neg hany, if_neg hany]
    simp

theorem keys_nodup_pyGroupBy {α κ : Type} [DecidableEq κ] (key : α → κ)
    (xs : List α) : ((pyGroupBy key xs).map (·.1)).Nodup := by
  rw [pyGroupBy]
  have main : ∀ (acc : List (κ × List α)), (acc.map (·.1)).Nodup →
      ((xs.foldl (pyGroupByStep key) acc).map (·.1)).Nodup := by
    induction xs with
    | nil => intro acc h; exact h
    | cons x xs ih =>
      intro acc h
      rw [List.foldl_cons]
      apply ih
      rw [keys_pyGroupByStep]
      by_cases hany : acc.any (fun g => g.1 = key x)
      · rw [if_pos hany]
        exact h
      · rw [if_neg hany]
        rw [List.nodup_append]
        refine ⟨h, List.nodup_singleton _, ?_⟩
        intro c hc hc'
        rw [List.mem_singleton] at hc'
        subst hc'
        obtain ⟨g, hg, hgk⟩ := List.mem_map.mp hc
        have : acc.any (fun g => g.1 = key x) = true :=
          List.any_eq_true.mpr ⟨g, hg, by simp [hgk]⟩
        exact hany this
  exact main [] (by simp)

theorem dictLookup_of_mem_nodup {κ β : Type} [DecidableEq κ]
    (l : List (κ × β)) (hnd : (l.map (·.1)).Nodup) (k : κ) (g : β)
    (hmem : (k, g) ∈ l) : dictLookup l k = some g := by
  induction l with
  | nil => cases hmem
  | cons p l ih =>
    rw [dictLookup_cons]
    rcases List.mem_cons.mp hmem with h | h
    · subst h
      rw [if_pos rfl]
    · have hk : p.1 ≠ k := by
        intro hpk
        rw [List.map_cons, List.nodup_cons] at hnd
        apply hnd.1
        rw [hpk]
        exact List.mem_map.mpr ⟨(k, g), h, rfl⟩
      rw [if_neg hk]
      exact ih (by rw [List.map_cons, List.nodup_cons] at hnd; exact hnd.2) h

theorem foldl_append_eq_join {β γ : Type} (f : γ → List β) (l : List γ) :
    ∀ init : List β, l.foldl (fun acc g => acc ++ f g) init = init ++ (l.map f).flatten := by
  induction l with
  | nil => intro init; simp
  | cons g l ih =>
    intro init
    rw [List.foldl_cons, ih, List.map_cons, List.flatten_cons, List.append_assoc]

-- ---------------------------------------------------------------
-- Helper lemmas: filter_assets_by_similarity
-- ---------------------------------------------------------------

theorem scoreAssetForTarget_asset (t : List ℚ) (b : Asset) (x : AssetWithScore)
    (h : scoreAssetForTarget t b = some x) : x.asset = b := by
  rw [scoreAssetForTarget] at h
  cases he : b.embedding with
  | none => rw [he] at h; cases h
  | some e =>
    rw [he] at h
    dsimp only at h
    by_cases h1 : e.isEmpty
    · rw [if_pos h1] at h; cases h
    · rw [if_neg h1] at h
      by_cases h2 : e.length ≠ t.length
      · rw [if_pos h2] at h; cases h
      · rw [if_neg h2] at h
        injection h with h
        rw [← h]

theorem scoreAssetForTarget_isSome (t : List ℚ) (a : Asset) :
    (scoreAssetForTarget t a).isSome = usableForEmbedding t a := by
  rw [scoreAssetForTarget, usableForEmbedding]
  cases he : a.embedding with
  | none => rfl
  | some e =>
    by_cases h1 : e.isEmpty
    · simp [h1]
    · by_cases h2 : e.length = t.length
      · simp [h1, h2]
      · simp [h1, h2]

theorem mem_filteredAssets (inp : SimilarityInput) (a : Asset)
    (h : a ∈ (filterAssetsBySimilarity inp).filteredAssets) : a ∈ inp.assets := by
  rw [filterAssetsBySimilarity] at h
  dsimp only at h
  obtain ⟨x, hx, hxa⟩ := List.mem_map.mp h
  have hx' : x ∈ List.insertionSort assetScoreGE
      (inp.assets.filterMap (scoreAssetForTarget inp.targetEmbedding)) :=
    List.take_subset _ _ hx
  have hx'' : x ∈ inp.assets.filterMap (scoreAssetForTarget inp.targetEmbedding) :=
    (List.perm_insertionSort assetScoreGE _).subset hx'
  obtain ⟨b, hb, hbx⟩ := List.mem_filterMap.mp hx''
  have := scoreAssetForTarget_asset inp.targetEmbedding b x hbx
  rw [← hxa, this]
  exact hb

theorem length_filteredAssets (inp : SimilarityInput) :
    (filterAssetsBySimilarity inp).filteredAssets.length
      = min ((max 1 (pyIntOfRat
          (((inp.assets.filterMap (scoreAssetForTarget inp.targetEmbedding)).length : ℚ)
            * inp.topFraction))).toNat)
          (inp.assets.filterMap (scoreAssetForTarget inp.targetEmbedding)).length := by
  rw [filterAssetsBySimilarity]
  dsimp only
  rw [List.length_map, List.length_take, List.length_insertionSort]

theorem filteredAssets_ne_nil (inp : SimilarityInput)
    (h : inp.assets.any (usableForEmbedding inp.targetEmbedding) = true) :
    (filterAssetsBySimilarity inp).filteredAssets ≠ [] := by
  obtain ⟨a, ha, hu⟩ := List.any_eq_true.mp h
  have hsome : (scoreAssetForTarget inp.targetEmbedding a).isSome := by
    rw [scoreAssetForTarget_isSome]
    exact hu
  obtain ⟨x, hx⟩ := Option.isSome_iff_exists.mp hsome
  have hmem : x ∈ inp.assets.filterMap (scoreAssetForTarget inp.targetEmbedding) :=
    List.mem_filterMap.mpr ⟨a, ha, hx⟩
  have hlen : 1 ≤ (inp.assets.filterMap (scoreAssetForTarget inp.targetEmbedding)).length :=
    List.length_pos.mpr (List.ne_nil_of_mem hmem)
  intro hnil
  have := length_filteredAssets inp
  rw [hnil] at this
  simp only [List.length_nil] at this
  have hmax : (1 : ℤ) ≤ max 1 (pyIntOfRat
      (((inp.assets.filterMap (scoreAssetForTarget inp.targetEmbedding)).length : ℚ)
        * inp.topFraction)) := le_max_left _ _
  omega

theorem filter_flatten_groups (contrib : String × List Asset → List Asset)
    (l : List (String × List Asset)) (k : String)
    (hkey : ∀ e ∈ l, ∀ a ∈ contrib e, assetTypeKey a = e.1)
    (hnd : (l.map (·.1)).Nodup) :
    ((l.map contrib).flatten).filter (fun a => assetTypeKey a = k)
      = match l.find? (fun e => e.1 = k) with
        | some e => contrib e
        | none => [] := by
  induction l with
  | nil => rfl
  | cons e l ih =>
    rw [List.map_cons, List.flatten_cons, List.filter_append]
    rw [List.map_cons, List.nodup_cons] at hnd
    by_cases he : e.1 = k
    · rw [List.find?_cons_of_pos _ (by simp [he])]
      have hfull : (contrib e).filter (fun a => assetTypeKey a = k) = contrib e := by
        rw [List.filter_eq_self]
        intro a ha
        simp [hkey e (List.mem_cons_self e l) a ha, he]
      have hrest : ((l.map contrib).flatten).filter (fun a => assetTypeKey a = k) = [] := by
        rw [List.filter_eq_nil_iff]
        intro a ha
        obtain ⟨la, hla, hala⟩ := List.mem_flatten.mp ha
        obtain ⟨e', he', he'c⟩ := List.mem_map.mp hla
        have hae : assetTypeKey a = e'.1 :=
          hkey e' (List.mem_cons_of_mem e he') a (he'c ▸ hala)
        have hne : e'.1 ≠ k := by
          intro hc
          apply hnd.1
          rw [he, ← hc]
          exact List.mem_map.mpr ⟨e', he', rfl⟩
        simp [hae, hne]
      rw [hfull, hrest, List.append_nil]
    · rw [List.find?_cons_of_neg _ (by simp [he])]
      have hnone : (contrib e).filter (fun a => assetTypeKey a = k) = [] := by
        rw [List.filter_eq_nil_iff]
        intro a ha
        simp [hkey e (List.mem_cons_self e l) a ha, he]
      rw [hnone, List.nil_append]
      exact ih (fun e' he' => hkey e' (List.mem_cons_of_mem e he')) hnd.2

theorem pyGroupBy_entry_spec (assets : List Asset) (e : String × List Asset)
    (he : e ∈ pyGroupBy assetTypeKey assets) :
    e.2 = assets.filter (fun a => assetTypeKey a = e.1) := by
  have hnd := keys_nodup_pyGroupBy assetTypeKey assets
  have hlk : dictLookup (pyGroupBy assetTypeKey assets) e.1 = some e.2 :=
    dictLookup_of_mem_nodup _ hnd e.1 e.2 (by rcases e with ⟨k, g⟩; exact he)
  rw [dictLookup_pyGroupBy] at hlk
  by_cases hemp : (assets.filter (fun a => assetTypeKey a = e.1)).isEmpty
  · rw [if_pos hemp] at hlk
    cases hlk
  · rw [if_neg hemp] at hlk
    injection hlk with hlk
    exact hlk.symm

theorem filterAssetsByIteration_filter_key (t : List ℚ) (assets : List Asset)
    (te : Option (List (String × List ℚ))) (i : Nat) (hi : i ≠ 0) (k : String) :
    (filterAssetsByIteration t assets i te).filter (fun a => assetTypeKey a = k)
      = if (assets.filter (fun a => assetTypeKey a = k)).isEmpty then []
        else (filterAssetsBySimilarity
          { targetEmbedding := chosenTypeEmbedding t te k
            assets := assets.filter (fun a => assetTypeKey a = k)
            topFraction := 1 / ((i : ℚ) + 1) }).filteredAssets := by
  rw [filterAssetsByIteration, if_neg hi]
  dsimp only
  rw [foldl_append_eq_join (fun g : String × List Asset =>
    (filterAssetsBySimilarity
      { targetEmbedding := chosenTypeEmbedding t te g.1
        assets := g.2
        topFraction := 1 / ((i : ℚ) + 1) }).filteredAssets), List.nil_append]
  rw [filter_flatten_groups _ _ k ?hkey (keys_nodup_pyGroupBy assetTypeKey assets)]
  case hkey =>
    intro e he a ha
    have hsub := mem_filteredAssets _ a ha
    have hchar := pyGroupBy_entry_spec assets e he
    rw [hchar] at hsub
    have hsub2 : a ∈ assets.filter (fun x => assetTypeKey x = e.1) := by
      simpa using hsub
    exact of_decide_eq_true (List.mem_filter.mp hsub2).2
  have hlk := dictLookup_pyGroupBy assetTypeKey assets k
  by_cases hemp : (assets.filter (fun a => assetTypeKey a = k)).isEmpty
  · rw [if_pos hemp] at hlk
    rw [if_pos hemp]
    have hfind : (pyGroupBy assetTypeKey assets).find? (fun e => decide (e.1 = k))
        = none := by
      cases hf : (pyGroupBy assetTypeKey assets).find? (fun e => decide (e.1 = k)) with
      | none => rfl
      | some e =>
        have hmap : ((pyGroupBy assetTypeKey assets).find?
            (fun e => decide (e.1 = k))).map (·.2) = none := hlk
        rw [hf] at hmap
        cases hmap
    rw [hfind]
  · rw [if_neg hemp] at hlk
    rw [if_neg hemp]
    cases hf : (pyGroupBy assetTypeKey assets).find? (fun e => decide (e.1 = k)) with
    | none =>
      have hmap : ((pyGroupBy assetTypeKey assets).find?
          (fun e => decide (e.1 = k))).map (·.2)
          = some (assets.filter (fun a => assetTypeKey a = k)) := hlk
      rw [hf] at hmap
      cases hmap
    | some e =>
      have hmap : ((pyGroupBy assetTypeKey assets).find?
          (fun e => decide (e.1 = k))).map (·.2)
          = some (assets.filter (fun a => assetTypeKey a = k)) := hlk
      rw [hf] at hmap
      injection hmap with hmap
      have hek : e.1 = k := by
        have hp := List.find?_some hf
        simpa using hp
      have he : e = (k, assets.filter (fun a => assetTypeKey a = k)) := by
        rcases e with ⟨e1, e2⟩
        simp only at hek hmap
        rw [hek, hmap]
      rw [he]

-- ---------------------------------------------------------------
-- Claim C7: iteration narrowing
-- ---------------------------------------------------------------

/-- C7 counterexample: a non-empty category whose assets all lack
embeddings is reduced to zero assets by the narrowing (the claim says no
non-empty category is ever reduced below one asset). -/
theorem c7_empty_category_counterexample :
    ([assetNoEmb].filter (fun a => assetTypeKey a = "product")).length = 1 ∧
    ((filterAssetsByIteration [1] [assetNoEmb] 1 none).filter
      (fun a => assetTypeKey a = "product")).length = 0 := by
  refine ⟨by decide, ?_⟩
  rw [filterAssetsByIteration_filter_key [1] [assetNoEmb] none 1 (by decide) "product"]
  rw [if_neg (by decide)]
  rw [length_filteredAssets]
  have hl : (([assetNoEmb].filter (fun a => assetTypeKey a = "product")).filterMap
      (scoreAssetForTarget (chosenTypeEmbedding [1] none "product"))).length = 0 := by
    decide
  rw [hl]
  simp

/-- C7 (amended): iteration 0 returns the pool unchanged; for iteration
i > 0 every category (asset-type group) is independently reduced to the
top 1/(i+1) fraction of its assets that carry a usable embedding, ranked
by cosine similarity against the category's chosen target vector (winner
mean when available, else the global input embedding); at iteration 2
each category keeps at most ceil(category_size/3) assets; and no
category containing at least one asset with a usable embedding (relative
to the category's chosen target) is reduced to zero - but a non-empty
category whose assets all lack usable embeddings is dropped entirely. -/
theorem c7_narrowing_amended :
    ∀ (target : List ℚ) (assets : List Asset) (te : Option (List (String × List ℚ)))
      (i : Nat) (k : String),
      (filterAssetsByIteration target assets 0 te = assets) ∧
      (i ≠ 0 →
        (filterAssetsByIteration target assets i te).filter
            (fun a => assetTypeKey a = k)
          = if (assets.filter (fun a => assetTypeKey a = k)).isEmpty then []
            else (filterAssetsBySimilarity
              { targetEmbedding := chosenTypeEmbedding target te k
                assets := assets.filter (fun a => assetTypeKey a = k)
                topFraction := 1 / ((i : ℚ) + 1) }).filteredAssets) ∧
      (3 * ((filterAssetsByIteration target assets 2 te).filter
          (fun a => assetTypeKey a = k)).length
        ≤ (assets.filter (fun a => assetTypeKey a = k)).length + 2) ∧
      (i ≠ 0 →
        (assets.filter (fun a => assetTypeKey a = k)).any
          (usableForEmbedding (chosenTypeEmbedding target te k)) = true →
        (filterAssetsByIteration target assets i te).filter
          (fun a => assetTypeKey a = k) ≠ []) := by
  intro target assets te i k
  refine ⟨rfl, fun hi => filterAssetsByIteration_filter_key target assets te i hi k, ?_, ?_⟩
  · rw [filterAssetsByIteration_filter_key target assets te 2 (by decide) k]
    by_cases hemp : (assets.filter (fun a => assetTypeKey a = k)).isEmpty
    · rw [if_pos hemp]
      simp
    · rw [if_neg hemp]
      rw [length_filteredAssets]
      set F := assets.filter (fun a => assetTypeKey a = k) with hF
      set m := (F.filterMap (scoreAssetForTarget
        (chosenTypeEmbedding target te k))).length with hm
      have hmn : m ≤ F.length := List.length_filterMap_le _ _
      have hq : ((m : ℚ)) * (1 / (((2 : ℕ) : ℚ) + 1)) = (m : ℚ) / ((3 : ℕ) : ℚ) := by
        push_cast
        ring
      have hfloor : pyIntOfRat ((m : ℚ) * (1 / (((2 : ℕ) : ℚ) + 1))) = ((m / 3 : ℕ) : ℤ) := by
        rw [hq, pyIntOfRat, if_pos (by positivity)]
        exact Rat.floor_natCast_div_natCast m 3
      rw [hfloor]
      have htn : ((max 1 ((m / 3 : ℕ) : ℤ)).toNat) = max 1 (m / 3) := by
        omega
      rw [htn]
      omega
  · intro hi hany
    rw [filterAssetsByIteration_filter_key target assets te i hi k]
    have hne : (assets.filter (fun a => assetTypeKey a = k)).isEmpty = false := by
      obtain ⟨a, ha, _⟩ := List.any_eq_true.mp hany
      rcases hF : assets.filter (fun a => assetTypeKey a = k) with _ | ⟨b, F⟩
      · rw [hF] at ha
        cases ha
      · rfl
    rw [if_neg (by simp [hne])]
    exact filteredAssets_ne_nil _ hany

/-- C7 witness: a one-asset product category with a usable embedding is
kept intact at iteration 0 and not reduced to zero at iteration 1. -/
theorem c7_narrowing_amended_witness :
    filterAssetsByIteration [1] [assetP] 0 none = [assetP] ∧
    ([assetP].filter (fun a => assetTypeKey a = "product")).any
      (usableForEmbedding (chosenTypeEmbedding [1] none "product")) = true ∧
    (filterAssetsByIteration [1] [assetP] 1 none).filter
      (fun a => assetTypeKey a = "product") ≠ [] := by
  have h := c7_narrowing_amended [1] [assetP] none 1 "product"
  exact ⟨h.1, by decide, h.2.2.2 (by decide) (by decide)⟩

-- ---------------------------------------------------------------
-- Helper lemmas: the image-generation loop
-- ---------------------------------------------------------------

theorem generateImageStep_cases (env : ExternalEnv) (cfg : OrchestrationConfig)
    (genResultId : PyUUID) (prompt : String) (db : DB) (ids : List PyUUID)
    (entry : Nat × AssetSet) :
    (generateImageStep env cfg genResultId prompt (db, ids) entry = (db, ids)) ∨
    (∃ fileName tags mv srcIds,
      generateImageStep env cfg genResultId prompt (db, ids) entry
        = ((serviceCreateGeneratedImage db genResultId fileName tags mv srcIds).2,
           ids ++ [(serviceCreateGeneratedImage db genResultId fileName tags mv srcIds).1.id])) := by
  rw [generateImageStep]
  rcases entry with ⟨i, assetSet⟩
  dsimp only
  rcases hba : getBaseAndReferenceAssets assetSet with ⟨b, refs⟩
  cases b with
  | none => left; rfl
  | some base =>
    dsimp only
    split
    · right
      exact ⟨_, _, _, _, rfl⟩
    · left
      rfl

theorem generateImageStep_spec (env : ExternalEnv) (cfg : OrchestrationConfig)
    (genResultId : PyUUID) (prompt : String) (db : DB) (ids : List PyUUID)
    (entry : Nat × AssetSet) :
    (generateImageStep env cfg genResultId prompt (db, ids) entry).1.steps = db.steps
      ∧ (generateImageStep env cfg genResultId prompt (db, ids) entry).1.genResults
          = db.genResults
      ∧ (generateImageStep env cfg genResultId prompt (db, ids) entry).1.images.length
          + ids.length
        = db.images.length
          + (generateImageStep env cfg genResultId prompt (db, ids) entry).2.length
      ∧ ∃ tail, (generateImageStep env cfg genResultId prompt (db, ids) entry).2
          = ids ++ tail := by
  rcases generateImageStep_cases env cfg genResultId prompt db ids entry with
    h | ⟨f, t, m, s, h⟩
  · rw [h]
    refine ⟨rfl, rfl, ?_, [], by simp⟩
    show db.images.length + ids.length = db.images.length + ids.length
    rfl
  · rw [h]
    refine ⟨rfl, rfl, ?_, [(serviceCreateGeneratedImage db genResultId f t m s).1.id], rfl⟩
    have him : ((serviceCreateGeneratedImage db genResultId f t m s).2).images.length
        = db.images.length + 1 := by
      simp [serviceCreateGeneratedImage, repoCreateGeneratedImage]
    dsimp only
    rw [him]
    simp only [List.length_append, List.length_cons, List.length_nil]
    omega

theorem generateImagesLoop_go_spec (env : ExternalEnv) (cfg : OrchestrationConfig)
    (genResultId : PyUUID) (prompt : String) (l : List (Nat × AssetSet)) :
    ∀ (db : DB) (ids : List PyUUID),
      (l.foldl (generateImageStep env cfg genResultId prompt) (db, ids)).1.steps = db.steps
      ∧ (l.foldl (generateImageStep env cfg genResultId prompt) (db, ids)).1.genResults
          = db.genResults
      ∧ (l.foldl (generateImageStep env cfg genResultId prompt) (db, ids)).1.images.length
          + ids.length
        = db.images.length
          + (l.foldl (generateImageStep env cfg genResultId prompt) (db, ids)).2.length
      ∧ ∃ tail, (l.foldl (generateImageStep env cfg genResultId prompt) (db, ids)).2
          = ids ++ tail := by
  induction l with
  | nil =>
    intro db ids
    refine ⟨rfl, rfl, ?_, [], by simp⟩
    show db.images.length + ids.length = db.images.length + ids.length
    rfl
  | cons entry l ih =>
    intro db ids
    rw [List.foldl_cons]
    obtain ⟨hs1, hg1, hi1, t1, ht1⟩ :=
      generateImageStep_spec env cfg genResultId prompt db ids entry
    rcases hstep : generateImageStep env cfg genResultId prompt (db, ids) entry
      with ⟨db1, ids1⟩
    rw [hstep] at hs1 hg1 hi1 ht1
    dsimp only at hs1 hg1 hi1 ht1
    obtain ⟨hs2, hg2, hi2, tail2, ht2⟩ := ih db1 ids1
    refine ⟨hs2.trans hs1, hg2.trans hg1, ?_, ?_⟩
    · have hlen1 : ids1.length = ids.length + t1.length := by
        rw [ht1]
        simp
      omega
    · exact ⟨t1 ++ tail2, by rw [ht2, ht1, List.append_assoc]⟩

theorem generateImagesLoop_spec (env : ExternalEnv) (cfg : OrchestrationConfig)
    (genResultId : PyUUID) (prompt : String) (assetSets : List AssetSet) (db : DB) :
    (generateImagesLoop env cfg genResultId prompt assetSets db).1.steps = db.steps
      ∧ (generateImagesLoop env cfg genResultId prompt assetSets db).1.genResults
          = db.genResults
      ∧ (generateImagesLoop env cfg genResultId prompt assetSets db).1.images.length
        = db.images.length
          + (generateImagesLoop env cfg genResultId prompt assetSets db).2.length := by
  obtain ⟨h1, h2, h3, _⟩ :=
    generateImagesLoop_go_spec env cfg genResultId prompt assetSets.enum db []
  rw [generateImagesLoop]
  simp only [List.length_nil] at h3
  exact ⟨h1, h2, by omega⟩

theorem find?_update_of_find? (sid : PyUUID) (step s' : FlowStep)
    (hid : s'.id = step.id) (hsid : step.id = sid) :
    ∀ l : List FlowStep, l.find? (fun s => s.id = sid) = some step →
      (l.map (fun s => if s.id = s'.id then s' else s)).find?
        (fun s => s.id = sid) = some s' := by
  intro l
  induction l with
  | nil => intro h; simp at h
  | cons p l ih =>
    intro h
    by_cases hp : p.id = sid
    · have hps' : p.id = s'.id := by rw [hp, hid, hsid]
      simp only [List.map_cons, if_pos hps']
      exact List.find?_cons_of_pos _ (by simp [hid, hsid])
    · have hps' : ¬ p.id = s'.id := fun hc => hp (hc.trans (hid.trans hsid))
      simp only [List.find?_cons] at h
      rw [decide_eq_false hp] at h
      dsimp only at h
      simp only [List.map_cons, if_neg hps']
      rw [List.find?_cons_of_neg _ (by simp [hp])]
      exact ih h

theorem getStep_repoUpdateStep (db : DB) (sid : PyUUID) (step s' : FlowStep)
    (h : getStep db sid = some step) (hid : s'.id = step.id) (hsid : step.id = sid) :
    getStep (repoUpdateStep db s') sid = some s' := by
  rw [getStep] at h
  rw [getStep, repoUpdateStep]
  exact find?_update_of_find? sid step s' hid hsid db.steps h

-- ---------------------------------------------------------------
-- Helper lemmas: reading off the effects of a generating pass
-- ---------------------------------------------------------------

theorem getStep_eq_of_steps (db1 db2 : DB) (sid : PyUUID) (h : db1.steps = db2.steps) :
    getStep db1 sid = getStep db2 sid := by
  rw [getStep, getStep, h]

theorem serviceCreateGenerationResult_out (db : DB) (sid : PyUUID) (prompt : String)
    (notes : Option String) (ids : List PyUUID) (r : GenerationResult) (db2 : DB)
    (h : serviceCreateGenerationResult db sid prompt notes ids = (r, db2)) :
    db2.steps = db.steps ∧ db2.images = db.images
      ∧ db2.genResults = db.genResults ++ [r] ∧ r.stepId = sid := by
  have h1 : r = (serviceCreateGenerationResult db sid prompt notes ids).1 := by rw [h]
  have h2 : db2 = (serviceCreateGenerationResult db sid prompt notes ids).2 := by rw [h]
  subst h1
  subst h2
  exact ⟨rfl, rfl, rfl, rfl⟩

theorem generateImagesLoop_out (env : ExternalEnv) (cfg : OrchestrationConfig)
    (gid : PyUUID) (prompt : String) (sets : List AssetSet) (db db3 : DB)
    (ids : List PyUUID)
    (h : generateImagesLoop env cfg gid prompt sets db = (db3, ids)) :
    db3.steps = db.steps ∧ db3.genResults = db.genResults
      ∧ db3.images.length = db.images.length + ids.length := by
  obtain ⟨h1, h2, h3⟩ := generateImagesLoop_spec env cfg gid prompt sets db
  rw [h] at h1 h2 h3
  exact ⟨h1, h2, h3⟩

/-- C6: a RUN_GENERATING execution that returns normally on a GENERATING
step with no pre-existing generation result either produced zero images
— then the job result is failed with error "No images were generated"
and the step row is untouched (still GENERATING) — or produced at least
one image, and then the step was transitioned to COLLECTING_DATA. -/
theorem c6_zero_images (env : ExternalEnv) (cfg : OrchestrationConfig) (db : DB)
    (job : Job) (assets : List Asset) (sid : PyUUID) (step : FlowStep)
    (db' : DB) (res : JobResult)
    (hjob : job.stepId = some sid)
    (hget : getStep db sid = some step)
    (hstate : step.state = FlowStepState.generating)
    (hnores : getGenerationResultByStep db sid = none)
    (hrun : executeGenerating env cfg db job assets = Except.ok (db', res)) :
    (res.success = false ∧ res.error = some "No images were generated"
      ∧ db'.images.length = db.images.length ∧ getStep db' sid = some step)
    ∨ (res.success = true ∧ db.images.length < db'.images.length
      ∧ getStep db' sid = some { step with state := FlowStepState.collectingData }) := by
  have hsid : step.id = sid := by
    rw [getStep] at hget
    have hp := List.find?_some hget
    simpa using hp
  have hsg : serviceGetStep db sid = Except.ok step := by
    rw [serviceGetStep, hget]
  rw [executeGenerating, hjob] at hrun
  dsimp only at hrun
  rw [hsg] at hrun
  dsimp only at hrun
  cases hcp : choosePromptForStep step (getFlow db job.flowId) with
  | error e =>
    rw [hcp] at hrun
    dsimp only at hrun
    simp at hrun
  | ok prompt =>
    rw [hcp] at hrun
    dsimp only at hrun
    cases hna : narrowAssetsForStep db job step assets with
    | error e =>
      rw [hna] at hrun
      dsimp only at hrun
      simp at hrun
    | ok currentAssets =>
      rw [hna] at hrun
      dsimp only at hrun
      rw [hsid, hnores] at hrun
      dsimp only at hrun
      rcases hgen : serviceCreateGenerationResult db sid prompt step.inputInsights
          (List.foldl (fun acc s => acc ++ s.assetIds) []
            (selectAssetSets env.rand
              { assets := currentAssets
                numSets := cfg.numImagesPerStep }).assetSets).dedup
        with ⟨genResult, db2⟩
      rw [hgen] at hrun
      dsimp only at hrun
      obtain ⟨hg1, hg2, hg3, hg4⟩ :=
        serviceCreateGenerationResult_out _ _ _ _ _ _ _ hgen
      rcases hloop : generateImagesLoop env cfg genResult.id prompt
          (selectAssetSets env.rand
            { assets := currentAssets
              numSets := cfg.numImagesPerStep }).assetSets db2
        with ⟨db3, ids⟩
      rw [hloop] at hrun
      dsimp only at hrun
      obtain ⟨hl1, hl2, hl3⟩ := generateImagesLoop_out _ _ _ _ _ _ _ _ hloop
      split at hrun
      · rename_i hemp
        injection hrun with hpair
        injection hpair with h1 h2
        subst h1
        subst h2
        left
        refine ⟨rfl, rfl, ?_, ?_⟩
        · have hz : ids = [] := List.isEmpty_iff.mp hemp
          subst hz
          rw [hg2] at hl3
          simp only [List.length_nil] at hl3
          omega
        · rw [getStep_eq_of_steps db3 db sid (hl1.trans hg1)]
          exact hget
      · rename_i hemp
        have hget3 : getStep db3 sid = some step := by
          rw [getStep_eq_of_steps db3 db sid (hl1.trans hg1)]
          exact hget
        have hnores' := hnores
        rw [getGenerationResultByStep] at hnores'
        have hgr3 : getGenerationResultByStep db3 sid = some genResult := by
          rw [getGenerationResultByStep, hl2, hg3, List.find?_append, hnores']
          simp [hg4]
        have htc : transitionToCollecting db3 sid
            = Except.ok ({ step with state := FlowStepState.collectingData },
                repoUpdateStep db3 { step with state := FlowStepState.collectingData }) := by
          rw [transitionToCollecting, serviceGetStep, hget3]
          dsimp only
          rw [if_neg (by rw [hstate]; exact fun hne => hne rfl)]
          rw [hgr3]
        rw [htc] at hrun
        dsimp only at hrun
        injection hrun with hpair
        injection hpair with h1 h2
        subst h1
        subst h2
        right
        refine ⟨rfl, ?_, ?_⟩
        · have hne : ids ≠ [] := fun h => hemp (by rw [h]; rfl)
          have hpos : 0 < ids.length := List.length_pos.mpr hne
          have himg : (repoUpdateStep db3
              { step with state := FlowStepState.collectingData }).images.length
              = db3.images.length := rfl
          rw [himg]
          rw [hg2] at hl3
          omega
        · exact getStep_repoUpdateStep db3 sid step
            { step with state := FlowStepState.collectingData } hget3 rfl hsid

/-- Witness for C6: the concrete run of the always-failing generator on
dbGen satisfies every hypothesis of the claim theorem; the run lands in
the zero-images disjunct. -/
theorem c6_zero_images_witness :
    jobGen.stepId = some 10 ∧ getStep dbGen 10 = some stepGen
      ∧ stepGen.state = FlowStepState.generating
      ∧ getGenerationResultByStep dbGen 10 = none
      ∧ ((c6RunPair.2.success = false
          ∧ c6RunPair.2.error = some "No images were generated"
          ∧ c6RunPair.1.images.length = dbGen.images.length
          ∧ getStep c6RunPair.1 10 = some stepGen)
        ∨ (c6RunPair.2.success = true
          ∧ dbGen.images.length < c6RunPair.1.images.length
          ∧ getStep c6RunPair.1 10
              = some { stepGen with state := FlowStepState.collectingData })) :=
  ⟨rfl, rfl, rfl, rfl,
    c6_zero_images envFail cfg0 dbGen jobGen [assetP] 10 stepGen
      c6RunPair.1 c6RunPair.2 rfl rfl rfl rfl rfl⟩

-- ---------------------------------------------------------------
-- C5 : the scheduler loop does not halt on a failed JobResult
-- ---------------------------------------------------------------

/-- C5 counterexample: in the single tick c5Run, the first executed job
returns a failed JobResult ("No images were generated"), yet the loop
keeps processing: it executes max_jobs_per_run = 10 jobs, every one
failed, every one the SAME re-derived RUN_GENERATING job, and the failed
first attempt's GenerationResult write persists (no rollback undoes it),
which is what makes every retry in the same tick fail. -/
theorem c5_fail_fast_counterexample :
    c5Run.2.length = 10
      ∧ c5Run.2.map JobResult.success = List.replicate 10 false
      ∧ (c5Run.2.map (fun r => r.error)).head? = some (some "No images were generated")
      ∧ c5Run.2.map (fun r => r.job) = List.replicate 10 jobGen
      ∧ c5Run.1.genResults.length = 1 :=
  ⟨rfl, rfl, rfl, rfl, rfl⟩

/-- C5 amended: one iteration of the run_once loop with a due job whose
flow, campaign and spec resolve appends the executed job's JobResult and
continues with the loop WHETHER OR NOT the result reports success; only
the jobs_processed budget (or the job queue running dry) ends the tick. -/
theorem c5_run_once_amended (env : ExternalEnv) (cfg : OrchestrationConfig)
    (maxJobs fuel : Nat) (db : DB) (jp : Nat) (results : List JobResult)
    (job : Job) (flow : CampaignFlow) (campaign : Campaign) (spec : CampaignSpec)
    (db' : DB) (res : JobResult)
    (hjp : jp < maxJobs)
    (hnext : getNextJob db none = some job)
    (hflow : getFlow db job.flowId = some flow)
    (hcamp : db.campaigns.find? (fun c => c.id = flow.campaignId) = some campaign)
    (hspec : db.specs.find? (fun sp => sp.id = campaign.campaignSpecId) = some spec)
    (hexec : executeJob env cfg db job spec.baseAssets spec = (db', res)) :
    runOnceLoop env cfg maxJobs (fuel + 1) db jp results
      = runOnceLoop env cfg maxJobs fuel db' (jp + 1) (results ++ [res]) := by
  simp only [runOnceLoop]
  rw [if_pos hjp]
  rw [hnext]
  dsimp only
  rw [hflow]
  dsimp only
  rw [hcamp]
  dsimp only
  rw [hspec]
  dsimp only
  rw [hexec]

/-- Witness for the amended C5 loop-step equation at the concrete tick's
first iteration: the executed job's result is the failed one, and the
loop equation nevertheless hands over to the next iteration. -/
theorem c5_run_once_amended_witness :
    0 < 10 ∧ getNextJob dbGen none = some jobGen
      ∧ getFlow dbGen jobGen.flowId = some flow0
      ∧ dbGen.campaigns.find? (fun c => c.id = flow0.campaignId) = some camp0
      ∧ dbGen.specs.find? (fun sp => sp.id = camp0.campaignSpecId) = some spec0
      ∧ runOnceLoop envFail cfg0 10 (10 + 1) dbGen 0 []
          = runOnceLoop envFail cfg0 10 10 c5ExecPair.1 (0 + 1) ([] ++ [c5ExecPair.2]) :=
  ⟨by decide, rfl, rfl, rfl, rfl,
    c5_run_once_amended envFail cfg0 10 10 dbGen 0 [] jobGen flow0 camp0 spec0
      c5ExecPair.1 c5ExecPair.2 (by decide) rfl rfl rfl rfl rfl⟩
